import Mathlib

/-!
Shallow embedding of the "Conto Termico 3.0" incentive calculators
(source file `app2.py`).

Python floats are modelled as exact rationals (`ℚ`); the biomass
calculator, whose stove branch uses the natural logarithm, is modelled
over `ℝ`.  Python's `float(f"{x:.2f}")` 2-decimal rounding is modelled
as round-to-nearest on exact values (`_round2`, Mathlib's `round`, ties
going up); all concrete statements below stay away from half-cent ties,
where the binary representation of the source's floats decides the tie.
A Python `raise ValueError(msg)` is modelled as `Except.error msg`.
Python's `s.lower().strip()` is modelled by `lower_strip` (written on
the character list because `String.toLower`/`String.trim` do not reduce
in the kernel).  Strings interpolated by Python f-strings are rebuilt
with `toString`, ignoring the f-string's purely presentational digit
formatting; only the fixed prefixes of those notes matter to the
statements below.
-/

namespace ContoTermico

/-- Python's `s.lower().strip()`: lower-case the string, then drop
leading and trailing whitespace. -/
def lower_strip (s : String) : String :=
  String.mk ((((s.data.map Char.toLower).dropWhile
    Char.isWhitespace).reverse.dropWhile Char.isWhitespace).reverse)

/-- Climate zone: `Zone = Literal["A", "B", "C", "D", "E", "F"]`. -/
inductive Zone
  | A | B | C | D | E | F
deriving DecidableEq

/-- Helper `_round2(x)`: round a monetary amount to 2 decimal places. -/
def _round2 {α : Type} [LinearOrderedField α] [FloorRing α] (x : α) : α :=
  ((round (100 * x) : ℤ) : α) / 100

/-- Helper `_annualities_by_threshold`: single instalment if the total is
`<= 15000` euros, otherwise `default_n` annual instalments. -/
def _annualities_by_threshold {α : Type} [LinearOrderedField α]
    [DecidableRel ((· ≤ ·) : α → α → Prop)]
    (value_eur : α) (default_n : ℕ) : ℕ :=
  if value_eur ≤ 15000 then 1 else default_n

/-- Helper `_band_index_sl`: Tabella 16 area bands, inclusive upper limits. -/
def _band_index_sl (sl_m2 : ℚ) : ℕ :=
  if sl_m2 ≤ 12 then 0
  else if sl_m2 ≤ 50 then 1
  else if sl_m2 ≤ 200 then 2
  else if sl_m2 ≤ 500 then 3
  else 4

/-- The `Result` dataclass.  `α` is the numeric type of the monetary
fields (`ℚ`, or `ℝ` for the biomass calculator); `δ` is the shape of
the per-calculator `details` dictionary. -/
structure Result (α : Type) (δ : Type) where
  intervention : String
  annual_incentive_eur : α
  total_incentive_eur : α
  n_rates : ℕ
  annual_rate_eur : α
  details : δ
  notes : List String
deriving DecidableEq

/-- Tabella 8 (`PDC_Quf`): zone heat-demand coefficient. -/
def PDC_Quf : Zone → ℚ
  | .A => 600
  | .B => 850
  | .C => 1100
  | .D => 1400
  | .E => 1700
  | .F => 1800

/-- Tabella 9 (`pdc_ci`): per-technology unit price in EUR/kWht,
banded by rated power; hard power ceilings raise a `ValueError`. -/
def pdc_ci (pdc_type : String) (prated_kw : ℚ) : Except String ℚ :=
  let p := prated_kw
  let t := lower_strip pdc_type
  if t = "aria_aria_split" then
    if p > 12 then
      .error "aria_aria_split valido solo per Prated <= 12 kW (Tabella 9)."
    else .ok 0.070
  else if t = "fixed_double_duct" then
    if p > 12 then
      .error "fixed_double_duct: in Tabella 9 è riportato con split/multisplit <= 12 kW."
    else .ok 0.200
  else if t = "aria_aria_vrf" then
    .ok (if p ≤ 35 then 0.15 else 0.055)
  else if t = "aria_aria_rooftop" then
    .ok (if p ≤ 35 then 0.15 else 0.055)
  else if t = "aria_acqua" then
    .ok (if p ≤ 35 then 0.15 else 0.06)
  else if t = "acqua_aria" then
    .ok (if p ≤ 35 then 0.160 else 0.06)
  else if t = "acqua_acqua" then
    .ok (if p ≤ 35 then 0.160 else 0.06)
  else if t = "salamoia_aria" then
    .ok (if p ≤ 35 then 0.160 else 0.06)
  else if t = "salamoia_acqua" then
    .ok (if p ≤ 35 then 0.160 else 0.06)
  else .error ("Tipo PDC non riconosciuto: " ++ pdc_type)

/-- The `details` dictionary of `calc_pdc_elettrica`. -/
structure PdcDetails where
  zone : Zone
  Quf : ℚ
  Prated_kW : ℚ
  Qu_kWht : ℚ
  Ci_eur_per_kWht : ℚ
  Ei_kWht : ℚ
  kp : ℚ
  SCOP : Option ℚ
  COP35 : Option ℚ
deriving DecidableEq

/-- The advisory note emitted on the `fixed_double_duct` branch. -/
def fdd_note : String := "fixed_double_duct: usato COP35 e kp=2.6 (come da Regole)."

/-- Calculator `calc_pdc_elettrica`: electric heat-pump incentive.
`Ia = Ei * Ci`, `Qu = Prated * Quf`, `Ei = Qu * (1 - 1/SCOP) * kp`,
with the `fixed_double_duct` branch using `COP35` and a forced
`kp = 2.6`.  Instalments: 2 by default if `Prated <= 35` else 5,
collapsed to 1 by `_annualities_by_threshold`. -/
def calc_pdc_elettrica (zone : Zone) (pdc_type : String) (prated_kw : ℚ)
    (scop : Option ℚ) (kp : ℚ) (cop35 : Option ℚ) :
    Except String (Result ℚ PdcDetails) :=
  let q_u := prated_kw * PDC_Quf zone
  match pdc_ci pdc_type prated_kw with
  | .error e => .error e
  | .ok ci =>
    match
      (if lower_strip pdc_type = "fixed_double_duct" then
        match cop35 with
        | none => .error "fixed_double_duct richiede COP35."
        | some cop =>
          .ok (q_u * (1 - 1 / cop) * (2.6 : ℚ), [fdd_note])
      else
        match scop with
        | none => .error "Serve SCOP (oppure usa fixed_double_duct con COP35)."
        | some sc => .ok (q_u * (1 - 1 / sc) * kp, ([] : List String))
        : Except String (ℚ × List String))
    with
    | .error e => .error e
    | .ok (e_i, notes) =>
      let ia := e_i * ci
      let default_n : ℕ := if prated_kw ≤ 35 then 2 else 5
      let itot := ia * (default_n : ℚ)
      let n_rates := _annualities_by_threshold itot default_n
      let annual_rate := itot / (n_rates : ℚ)
      .ok {
        intervention := "PDC elettrica"
        annual_incentive_eur := _round2 (if n_rates ≠ 1 then ia else itot)
        total_incentive_eur := _round2 itot
        n_rates := n_rates
        annual_rate_eur := _round2 annual_rate
        details := {
          zone := zone
          Quf := PDC_Quf zone
          Prated_kW := prated_kw
          Qu_kWht := q_u
          Ci_eur_per_kWht := ci
          Ei_kWht := e_i
          kp := kp
          SCOP := scop
          COP35 := cop35 }
        notes := notes }

/-- Tabella 18 (`hybrid_k`): multiplier for hybrid / bivalent systems. -/
def hybrid_k (system_type : String) (boiler_pn_kw : ℚ) : Except String ℚ :=
  let t := lower_strip system_type
  if t = "ibrido_factory_made" then .ok 1.25
  else if t = "bivalente_addon" then
    .ok (if boiler_pn_kw ≤ 35 then 1.0 else 1.1)
  else .error "system_type deve essere: ibrido_factory_made | bivalente_addon"

/-- The `details` dictionary of `calc_ibrido`: the Python code spreads
`base.details` and adds three keys; that dictionary union is modelled
as a nested record. -/
structure IbridoDetails where
  base : PdcDetails
  system_type : String
  boiler_Pn_kW : ℚ
  k : ℚ
deriving DecidableEq

/-- Calculator `calc_ibrido`: hybrid / bivalent add-on.  Runs the heat-pump
calculator, multiplies the annual term `Ei * Ci` by the Tabella 18
factor `k` and rebuilds the instalment schedule from `prated_kw`. -/
def calc_ibrido (zone : Zone) (system_type : String) (boiler_pn_kw : ℚ)
    (pdc_type : String) (prated_kw : ℚ)
    (scop : Option ℚ) (kp : ℚ) (cop35 : Option ℚ) :
    Except String (Result ℚ IbridoDetails) :=
  match calc_pdc_elettrica zone pdc_type prated_kw scop kp cop35 with
  | .error e => .error e
  | .ok base =>
    match hybrid_k system_type boiler_pn_kw with
    | .error e => .error e
    | .ok k =>
      let default_n : ℕ := if prated_kw ≤ 35 then 2 else 5
      let ia := base.details.Ei_kWht * base.details.Ci_eur_per_kWht * k
      let itot := ia * (default_n : ℚ)
      let n_rates := _annualities_by_threshold itot default_n
      let annual_rate := itot / (n_rates : ℚ)
      .ok {
        intervention := "Sistema ibrido/bivalente (add-on)"
        annual_incentive_eur := _round2 (if n_rates ≠ 1 then ia else itot)
        total_incentive_eur := _round2 itot
        n_rates := n_rates
        annual_rate_eur := _round2 annual_rate
        details := {
          base := base.details
          system_type := system_type
          boiler_Pn_kW := boiler_pn_kw
          k := k }
        notes := base.notes ++ ["Applicato k=" ++ toString k ++ " (Tabella 18)."] }

/-- Tabella 11 (`BIOMASS_HR`): zone heat-demand coefficient. -/
noncomputable def BIOMASS_HR : Zone → ℝ
  | .A => 600
  | .B => 850
  | .C => 1100
  | .D => 1400
  | .E => 1700
  | .F => 1800

/-- Tabella 10 (`biomass_ci`): device unit price, banded by power for
boilers only. -/
noncomputable def biomass_ci (device : String) (pn_kw : ℝ) : Except String ℝ :=
  let d := lower_strip device
  if d = "caldaia" then
    .ok (if pn_kw ≤ 35 then 0.060 else if pn_kw ≤ 500 then 0.025 else 0.020)
  else if d = "stufa_termocamino_legna" then .ok 0.045
  else if d = "stufa_termocamino_pellet" then .ok 0.055
  else .error "device: caldaia | stufa_termocamino_legna | stufa_termocamino_pellet"

/-- Tabelle 12/13 (`biomass_ce`): emissions multiplier from the
particulate-reduction percentage. -/
noncomputable def biomass_ce (reduction_pp_percent : ℝ) : ℝ :=
  if reduction_pp_percent ≤ 20 then 1.0
  else if reduction_pp_percent ≤ 50 then 1.2
  else 1.5

/-- The `details` dictionary of `calc_biomassa`. -/
structure BiomassaDetails where
  zone : Zone
  Pn_kW : ℝ
  hr : ℝ
  Ci_eur_per_kWht : ℝ
  Ce : ℝ
  reduction_PP_percent : ℝ
  formula : String

/-- Calculator `calc_biomassa`: biomass generators.  Boilers use
`Ia = Pn * hr * Ci * Ce`; stoves and fireplaces use
`Ia = 3.35 * ln(Pn) * hr * Ci * Ce`. -/
noncomputable def calc_biomassa (zone : Zone) (device : String)
    (pn_kw : ℝ) (reduction_pp_percent : ℝ) :
    Except String (Result ℝ BiomassaDetails) :=
  let hr := BIOMASS_HR zone
  match biomass_ci device pn_kw with
  | .error e => .error e
  | .ok ci =>
    let ce := biomass_ce reduction_pp_percent
    let d := lower_strip device
    let ia :=
      if d = "caldaia" then pn_kw * hr * ci * ce
      else 3.35 * Real.log pn_kw * hr * ci * ce
    let default_n : ℕ := if pn_kw ≤ 35 then 2 else 5
    let itot := ia * (default_n : ℝ)
    let n_rates := _annualities_by_threshold itot default_n
    let annual_rate := itot / (n_rates : ℝ)
    .ok {
      intervention := "Biomassa"
      annual_incentive_eur := _round2 (if n_rates ≠ 1 then ia else itot)
      total_incentive_eur := _round2 itot
      n_rates := n_rates
      annual_rate_eur := _round2 annual_rate
      details := {
        zone := zone
        Pn_kW := pn_kw
        hr := hr
        Ci_eur_per_kWht := ci
        Ce := ce
        reduction_PP_percent := reduction_pp_percent
        formula := if d = "caldaia" then "Pn*hr*Ci*Ce" else "3.35*ln(Pn)*hr*Ci*Ce" }
      notes := [] }

/-- Tabella 17 (`SOLAR_CI`): per-application banded unit prices; `none`
models a key that is not in the Python dictionary. -/
def SOLAR_CI (application : String) : Option (List ℚ) :=
  if application = "acs" then some [0.35, 0.32, 0.13, 0.12, 0.11]
  else if application = "acs_risc_bassaT_rete" then some [0.36, 0.33, 0.13, 0.12, 0.11]
  else if application = "concentrazione" then some [0.38, 0.35, 0.13, 0.12, 0.11]
  else if application = "solar_cooling" then some [0.43, 0.40, 0.17, 0.15, 0.14]
  else none

/-- Collector construction type: `collector_kind : Literal["piano_sottovuoto", "factory_made", "concentrazione"]`. -/
inductive CollectorKind
  | piano_sottovuoto | factory_made | concentrazione
deriving DecidableEq

/-- The `details` dictionary of `calc_solare_termico`. -/
structure SolareDetails where
  application : String
  Sl_m2 : ℚ
  Ci_eur_per_kWht : ℚ
  band_index : ℕ
  collector_kind : CollectorKind
  modules_n : ℕ
  module_Ag_m2 : ℚ
  Qu_kWht_per_m2 : ℚ
deriving DecidableEq

/-- The advisory note for a declared area that deviates from
`modules * Ag` (the Python f-string prints `sl_calc` with 2 decimals;
the digits are presentational and not reproduced). -/
def solare_mismatch_note (sl_m2 sl_calc : ℚ) : String :=
  "Nota: Sl fornita (" ++ toString sl_m2 ++ ") differisce da moduli*Ag (" ++
    toString sl_calc ++ "). Uso Sl fornita."

/-- Calculator `calc_solare_termico`: solar-thermal collectors.  The declared
area is cross-checked against `modules * Ag` with a 5% tolerance
(advisory note only); `Ia = Ci * Qu * Sl` on the declared area. -/
def calc_solare_termico (application : String) (sl_m2 : ℚ) (modules_n : ℕ)
    (module_ag_m2 : ℚ) (collector_kind : CollectorKind)
    (q_kwh_per_year_per_module : Option ℚ) (ql_mj_per_year_per_module : Option ℚ) :
    Except String (Result ℚ SolareDetails) :=
  let app := lower_strip application
  match SOLAR_CI app with
  | none => .error "application: acs | acs_risc_bassaT_rete | concentrazione | solar_cooling"
  | some prices =>
    let sl_calc := (modules_n : ℚ) * module_ag_m2
    let notes : List String :=
      if |sl_calc - sl_m2| / max sl_m2 1e-9 > 0.05 then
        [solare_mismatch_note sl_m2 sl_calc]
      else []
    let band := _band_index_sl sl_m2
    let ci := prices.getD band 0
    match
      (match collector_kind with
       | .factory_made =>
         (match ql_mj_per_year_per_module with
          | none => .error "factory_made richiede QL (MJ/anno per modulo)."
          | some ql => .ok ((ql / 3.6) / module_ag_m2))
       | _ =>
         (match q_kwh_per_year_per_module with
          | none => .error "piano_sottovuoto/concentrazione richiede Qcol o Qsol (kWht/anno per modulo)."
          | some q => .ok (q / module_ag_m2))
        : Except String ℚ)
    with
    | .error e => .error e
    | .ok qu =>
      let ia := ci * qu * sl_m2
      let default_n : ℕ := if sl_m2 ≤ 50 then 2 else 5
      let itot := ia * (default_n : ℚ)
      let n_rates := _annualities_by_threshold itot default_n
      let annual_rate := itot / (n_rates : ℚ)
      .ok {
        intervention := "Solare termico"
        annual_incentive_eur := _round2 (if n_rates ≠ 1 then ia else itot)
        total_incentive_eur := _round2 itot
        n_rates := n_rates
        annual_rate_eur := _round2 annual_rate
        details := {
          application := app
          Sl_m2 := sl_m2
          Ci_eur_per_kWht := ci
          band_index := band
          collector_kind := collector_kind
          modules_n := modules_n
          module_Ag_m2 := module_ag_m2
          Qu_kWht_per_m2 := qu }
        notes := notes }

/-- Table `pv_cftv_max`: EUR/kW cap for photovoltaics, banded by PV power;
above 1000 kW the table raises a `ValueError`. -/
def pv_cftv_max (p_kw : ℚ) : Except String ℚ :=
  if p_kw ≤ 20 then .ok 1500
  else if p_kw ≤ 200 then .ok 1200
  else if p_kw ≤ 600 then .ok 1100
  else if p_kw ≤ 1000 then .ok 1050
  else .error "PFTV fuori range (max 1000 kW in tabella)."

/-- The `details` dictionary of `calc_pv_accumulo`. -/
structure PvDetails where
  P_pv_kW : ℚ
  CFTV_eur_per_kW_used : ℚ
  storage_kWh : ℚ
  CACC_eur_per_kWh_used : ℚ
  perc : ℚ
  itot_raw : ℚ
  Imax_pdc : ℚ
deriving DecidableEq

/-- The advisory note recording that the `Imax = Itot` ceiling bound. -/
def imax_note : String := "Applicato vincolo Imax = Itot generatore (PDC)."

/-- The note emitted for public buildings (100% eligible expense). -/
def pv_pub_note : String := "Edificio pubblico: percentuale spesa incentivata 100%."

/-- The note spelling out the eligible-expense percentage (the Python
f-string prints the percentage with one decimal; presentational). -/
def pv_perc_note (bonus_pp : ℤ) : String :=
  "%spesa = 20% + " ++ toString bonus_pp ++ "pp = " ++
    toString ((0.20 + (bonus_pp : ℚ) / 100) * 100) ++ "%"

/-- Calculator `calc_pv_accumulo`: PV + storage add-on.  Raw incentive is the
eligible-expense percentage times the capped specific costs; the final
total is clamped by the primary generator's total incentive. -/
def calc_pv_accumulo (pdc_total_incentive_eur : ℚ) (p_pv_kw : ℚ)
    (cost_pv_eur : ℚ) (storage_kwh : ℚ) (cost_storage_eur : ℚ)
    (bonus_pp : ℤ) (public_building_100pct : Bool) :
    Except String (Result ℚ PvDetails) :=
  let perc : ℚ := if public_building_100pct then 1.0 else 0.20 + (bonus_pp : ℚ) / 100
  let notes : List String :=
    if public_building_100pct then [pv_pub_note] else [pv_perc_note bonus_pp]
  match pv_cftv_max p_pv_kw with
  | .error e => .error e
  | .ok cap =>
    let cftv := min (cost_pv_eur / p_pv_kw) cap
    let cacc := if storage_kwh > 0 then min (cost_storage_eur / storage_kwh) 1000.0 else 0.0
    let itot_raw := perc * (cftv * p_pv_kw + cacc * storage_kwh)
    let itot := min itot_raw pdc_total_incentive_eur
    let notes := if itot < itot_raw then notes ++ [imax_note] else notes
    let n_rates := _annualities_by_threshold itot 2
    let annual_rate := itot / (n_rates : ℚ)
    .ok {
      intervention := "FV + accumulo (add-on)"
      annual_incentive_eur := _round2 (if n_rates ≠ 1 then annual_rate else itot)
      total_incentive_eur := _round2 itot
      n_rates := n_rates
      annual_rate_eur := _round2 annual_rate
      details := {
        P_pv_kW := p_pv_kw
        CFTV_eur_per_kW_used := cftv
        storage_kWh := storage_kwh
        CACC_eur_per_kWh_used := cacc
        perc := perc
        itot_raw := itot_raw
        Imax_pdc := pdc_total_incentive_eur }
      notes := notes }

/-- Table `ev_cost_max`: per-category cost ceiling for EV charging points. -/
def ev_cost_max (category : String) (power_kw : Option ℚ) : Except String ℚ :=
  let c := lower_strip category
  if c = "a_mono" then .ok 2400.0
  else if c = "a_tri" then .ok 8400.0
  else if c = "b_22_50" then
    match power_kw with
    | none => .error "b_22_50 richiede power_kw."
    | some pw => .ok (1200.0 * pw)
  else if c = "b_50_100" then .ok 60000.0
  else if c = "b_gt100" then .ok 110000.0
  else .error "Categoria non valida."

/-- The `details` dictionary of `calc_ev`. -/
structure EvDetails where
  eligible_cost_eur : ℚ
  Cmax_eur : ℚ
  cost_used_eur : ℚ
  itot_raw : ℚ
  Imax_pdc : ℚ
  category : String
  power_kw : Option ℚ
deriving DecidableEq

/-- Calculator `calc_ev`: EV-charging add-on.  Incentive is 30% of
`min(eligible cost, category ceiling)`, clamped by the primary
generator's total incentive. -/
def calc_ev (pdc_total_incentive_eur : ℚ) (eligible_cost_eur : ℚ)
    (category : String) (power_kw : Option ℚ) :
    Except String (Result ℚ EvDetails) :=
  match ev_cost_max category power_kw with
  | .error e => .error e
  | .ok cmax =>
    let cost_used := min eligible_cost_eur cmax
    let itot_raw := 0.30 * cost_used
    let itot := min itot_raw pdc_total_incentive_eur
    let notes₀ := ["Costo usato = min(C, Cmax) = " ++ toString cost_used ++
      " €; incentivo = 30% del costo usato."]
    let notes := if itot < itot_raw then notes₀ ++ [imax_note] else notes₀
    let n_rates := _annualities_by_threshold itot 2
    let annual_rate := itot / (n_rates : ℚ)
    .ok {
      intervention := "EV charging privata (add-on)"
      annual_incentive_eur := _round2 (if n_rates ≠ 1 then annual_rate else itot)
      total_incentive_eur := _round2 itot
      n_rates := n_rates
      annual_rate_eur := _round2 annual_rate
      details := {
        eligible_cost_eur := eligible_cost_eur
        Cmax_eur := cmax
        cost_used_eur := cost_used
        itot_raw := itot_raw
        Imax_pdc := pdc_total_incentive_eur
        category := category
        power_kw := power_kw }
      notes := notes }

/-! ## Derived quantities read back from a `Result`

Each calculator stores its unrounded intermediates in `details`; the
following definitions recover the default instalment count and the
unrounded total incentive from them. -/

/-- Default instalment count of the heat-pump calculator: 2 for rated
power `<= 35` kW, else 5. -/
def pdc_default_of (dt : PdcDetails) : ℕ :=
  if dt.Prated_kW ≤ 35 then 2 else 5

/-- Unrounded total incentive of the heat-pump calculator:
`Ei * Ci * default_n`. -/
def pdc_itot_of (dt : PdcDetails) : ℚ :=
  dt.Ei_kWht * dt.Ci_eur_per_kWht * (pdc_default_of dt : ℚ)

/-- Default instalment count of the hybrid calculator (driven by the
heat pump's rated power). -/
def ibrido_default_of (dt : IbridoDetails) : ℕ :=
  if dt.base.Prated_kW ≤ 35 then 2 else 5

/-- Unrounded total incentive of the hybrid calculator:
`Ei * Ci * k * default_n`. -/
def ibrido_itot_of (dt : IbridoDetails) : ℚ :=
  dt.base.Ei_kWht * dt.base.Ci_eur_per_kWht * dt.k * (ibrido_default_of dt : ℚ)

/-- Default instalment count of the biomass calculator. -/
noncomputable def biomassa_default_of (dt : BiomassaDetails) : ℕ :=
  if dt.Pn_kW ≤ 35 then 2 else 5

/-- Unrounded annual incentive of the biomass calculator, read off the
branch marker recorded in `details.formula`. -/
noncomputable def biomassa_ia_of (dt : BiomassaDetails) : ℝ :=
  if dt.formula = "Pn*hr*Ci*Ce" then
    dt.Pn_kW * dt.hr * dt.Ci_eur_per_kWht * dt.Ce
  else 3.35 * Real.log dt.Pn_kW * dt.hr * dt.Ci_eur_per_kWht * dt.Ce

/-- Unrounded total incentive of the biomass calculator. -/
noncomputable def biomassa_itot_of (dt : BiomassaDetails) : ℝ :=
  biomassa_ia_of dt * (biomassa_default_of dt : ℝ)

/-- Default instalment count of the solar-thermal calculator: 2 for a
declared area `<= 50` m², else 5. -/
def solare_default_of (dt : SolareDetails) : ℕ :=
  if dt.Sl_m2 ≤ 50 then 2 else 5

/-- Unrounded total incentive of the solar-thermal calculator:
`Ci * Qu * Sl * default_n`. -/
def solare_itot_of (dt : SolareDetails) : ℚ :=
  dt.Ci_eur_per_kWht * dt.Qu_kWht_per_m2 * dt.Sl_m2 * (solare_default_of dt : ℚ)

/-- Unrounded (clamped) total incentive of the PV + storage add-on. -/
def pv_itot_of (dt : PvDetails) : ℚ :=
  min dt.itot_raw dt.Imax_pdc

/-- Unrounded (clamped) total incentive of the EV-charging add-on. -/
def ev_itot_of (dt : EvDetails) : ℚ :=
  min dt.itot_raw dt.Imax_pdc

/-! ## Shared arithmetic about the instalment tail

Every calculator ends with the same schedule code: `itot = ia *
default_n`, `n_rates = _annualities_by_threshold itot default_n`,
`annual_rate = itot / n_rates`, and an annual-incentive field that
shows `ia` when there are several instalments and `itot` when there is
a single one. -/

lemma annualities_pos {α : Type} [LinearOrderedField α]
    [DecidableRel ((· ≤ ·) : α → α → Prop)]
    (v : α) (dn : ℕ) (hdn : dn ≠ 0) :
    _annualities_by_threshold v dn ≠ 0 := by
  unfold _annualities_by_threshold
  split_ifs <;> simp [hdn]

/-- The annual-incentive field (`ia` for several instalments, `itot`
for a single one) always equals `itot / n_rates` before rounding. -/
lemma annual_incentive_eq_rate {α : Type} [LinearOrderedField α]
    [FloorRing α] [DecidableRel ((· ≤ ·) : α → α → Prop)]
    (ia : α) (dn : ℕ) (hdn : dn ≠ 0) :
    _round2 (if _annualities_by_threshold (ia * (dn : α)) dn ≠ 1 then ia
      else ia * (dn : α)) =
      _round2 (ia * (dn : α) / (_annualities_by_threshold (ia * (dn : α)) dn : α)) := by
  unfold _annualities_by_threshold
  split_ifs with h h1 h2
  · simp at h1
  · simp
  · congr 1
    rw [mul_div_assoc]
    have : ((dn : α)) ≠ 0 := Nat.cast_ne_zero.mpr hdn
    rw [div_self this, mul_one]
  · simp at h2
    subst h2
    simp

/-- The alternative tail used by the add-on calculators, whose
annual-incentive field shows the unrounded `annual_rate` instead of
`ia`. -/
lemma annual_incentive_eq_rate' {α : Type} [LinearOrderedField α]
    [FloorRing α] (itot : α) (n : ℕ) :
    (if n ≠ 1 then itot / (n : α) else itot) = itot / (n : α) := by
  split_ifs with h
  · rfl
  · simp at h
    subst h
    simp

/-! ## Inversion lemma for the heat-pump calculator -/

/-- Characterisation of every `Result` produced by
`calc_pdc_elettrica` in terms of its recorded details. -/
lemma calc_pdc_elettrica_ok (z : Zone) (ty : String) (p : ℚ)
    (s : Option ℚ) (kp : ℚ) (c : Option ℚ) (r : Result ℚ PdcDetails)
    (h : calc_pdc_elettrica z ty p s kp c = .ok r) :
    r.details.Prated_kW = p ∧
    r.details.Quf = PDC_Quf z ∧
    r.n_rates = (if pdc_itot_of r.details ≤ 15000 then 1 else pdc_default_of r.details) ∧
    r.total_incentive_eur = _round2 (pdc_itot_of r.details) ∧
    r.annual_rate_eur = _round2 (pdc_itot_of r.details / (r.n_rates : ℚ)) ∧
    r.annual_incentive_eur = _round2 (pdc_itot_of r.details / (r.n_rates : ℚ)) := by
  unfold calc_pdc_elettrica at h
  cases hci : pdc_ci ty p with
  | error e => simp only [hci] at h; exact absurd h (by simp)
  | ok ci =>
    simp only [hci] at h
    by_cases hty : lower_strip ty = "fixed_double_duct"
    · rw [if_pos hty] at h
      cases c with
      | none => simp at h
      | some cop =>
        simp only [Except.ok.injEq] at h
        subst h
        refine ⟨rfl, rfl, rfl, rfl, rfl, ?_⟩
        exact annual_incentive_eq_rate (p * PDC_Quf z * (1 - 1 / cop) * 2.6 * ci)
          (if p ≤ 35 then 2 else 5) (by split_ifs <;> simp)
    · rw [if_neg hty] at h
      cases s with
      | none => simp at h
      | some sc =>
        simp only [Except.ok.injEq] at h
        subst h
        refine ⟨rfl, rfl, rfl, rfl, rfl, ?_⟩
        exact annual_incentive_eq_rate (p * PDC_Quf z * (1 - 1 / sc) * kp * ci)
          (if p ≤ 35 then 2 else 5) (by split_ifs <;> simp)

/-- Characterisation of every `Result` produced by `calc_ibrido`. -/
lemma calc_ibrido_ok (z : Zone) (sys : String) (boiler : ℚ) (ty : String)
    (p : ℚ) (s : Option ℚ) (kp : ℚ) (c : Option ℚ) (r : Result ℚ IbridoDetails)
    (h : calc_ibrido z sys boiler ty p s kp c = .ok r) :
    r.details.base.Prated_kW = p ∧
    r.n_rates = (if ibrido_itot_of r.details ≤ 15000 then 1 else ibrido_default_of r.details) ∧
    r.total_incentive_eur = _round2 (ibrido_itot_of r.details) ∧
    r.annual_rate_eur = _round2 (ibrido_itot_of r.details / (r.n_rates : ℚ)) ∧
    r.annual_incentive_eur = _round2 (ibrido_itot_of r.details / (r.n_rates : ℚ)) := by
  unfold calc_ibrido at h
  cases hb : calc_pdc_elettrica z ty p s kp c with
  | error e => simp only [hb] at h; exact absurd h (by simp)
  | ok base =>
    simp only [hb] at h
    cases hk : hybrid_k sys boiler with
    | error e => simp only [hk] at h; exact absurd h (by simp)
    | ok k =>
      simp only [hk, Except.ok.injEq] at h
      subst h
      have hP := (calc_pdc_elettrica_ok z ty p s kp c base hb).1
      refine ⟨hP, ?_, ?_, ?_, ?_⟩
      · simp only [ibrido_itot_of, ibrido_default_of, hP]; try rfl
      · simp only [ibrido_itot_of, ibrido_default_of, hP]; try rfl
      · simp only [ibrido_itot_of, ibrido_default_of, hP]; try rfl
      · simp only [ibrido_itot_of, ibrido_default_of, hP]
        exact annual_incentive_eq_rate
          (base.details.Ei_kWht * base.details.Ci_eur_per_kWht * k)
          (if p ≤ 35 then 2 else 5) (by split_ifs <;> simp)

/-- Characterisation of every `Result` produced by `calc_biomassa`. -/
lemma calc_biomassa_ok (z : Zone) (dev : String) (pn red : ℝ)
    (r : Result ℝ BiomassaDetails)
    (h : calc_biomassa z dev pn red = .ok r) :
    r.details.Pn_kW = pn ∧
    r.n_rates = (if biomassa_itot_of r.details ≤ 15000 then 1 else biomassa_default_of r.details) ∧
    r.total_incentive_eur = _round2 (biomassa_itot_of r.details) ∧
    r.annual_rate_eur = _round2 (biomassa_itot_of r.details / (r.n_rates : ℝ)) ∧
    r.annual_incentive_eur = _round2 (biomassa_itot_of r.details / (r.n_rates : ℝ)) := by
  unfold calc_biomassa at h
  cases hci : biomass_ci dev pn with
  | error e => simp only [hci] at h; exact absurd h (by simp)
  | ok ci =>
    simp only [hci, Except.ok.injEq] at h
    subst h
    by_cases hd : lower_strip dev = "caldaia" <;>
      refine ⟨rfl, ?_, ?_, ?_, ?_⟩ <;>
        simp only [biomassa_itot_of, biomassa_ia_of, biomassa_default_of, hd,
          if_true, if_false, reduceIte] <;>
      try rfl
    · exact annual_incentive_eq_rate (pn * BIOMASS_HR z * ci * biomass_ce red)
        (if pn ≤ 35 then 2 else 5) (by split_ifs <;> simp)
    · exact annual_incentive_eq_rate (3.35 * Real.log pn * BIOMASS_HR z * ci * biomass_ce red)
        (if pn ≤ 35 then 2 else 5) (by split_ifs <;> simp)

/-- Characterisation of every `Result` produced by
`calc_solare_termico`, including its advisory notes. -/
lemma calc_solare_termico_ok (app : String) (sl : ℚ) (n : ℕ) (ag : ℚ)
    (kind : CollectorKind) (q ql : Option ℚ) (r : Result ℚ SolareDetails)
    (h : calc_solare_termico app sl n ag kind q ql = .ok r) :
    r.details.Sl_m2 = sl ∧
    r.details.modules_n = n ∧
    r.n_rates = (if solare_itot_of r.details ≤ 15000 then 1 else solare_default_of r.details) ∧
    r.total_incentive_eur = _round2 (solare_itot_of r.details) ∧
    r.annual_rate_eur = _round2 (solare_itot_of r.details / (r.n_rates : ℚ)) ∧
    r.annual_incentive_eur = _round2 (solare_itot_of r.details / (r.n_rates : ℚ)) ∧
    r.notes = (if |(n : ℚ) * ag - sl| / max sl 1e-9 > 0.05 then
      [solare_mismatch_note sl ((n : ℚ) * ag)] else []) := by
  unfold calc_solare_termico at h
  cases hso : SOLAR_CI (lower_strip app) with
  | none => simp only [hso] at h; exact absurd h (by simp)
  | some prices =>
    simp only [hso] at h
    cases kind with
    | factory_made =>
      cases ql with
      | none => simp at h
      | some qlv =>
        simp only [Except.ok.injEq] at h
        subst h
        exact ⟨rfl, rfl, rfl, rfl, rfl,
          annual_incentive_eq_rate (prices.getD (_band_index_sl sl) 0 * (qlv / 3.6 / ag) * sl)
            (if sl ≤ 50 then 2 else 5) (by split_ifs <;> simp), rfl⟩
    | piano_sottovuoto =>
      cases q with
      | none => simp at h
      | some qv =>
        simp only [Except.ok.injEq] at h
        subst h
        exact ⟨rfl, rfl, rfl, rfl, rfl,
          annual_incentive_eq_rate (prices.getD (_band_index_sl sl) 0 * (qv / ag) * sl)
            (if sl ≤ 50 then 2 else 5) (by split_ifs <;> simp), rfl⟩
    | concentrazione =>
      cases q with
      | none => simp at h
      | some qv =>
        simp only [Except.ok.injEq] at h
        subst h
        exact ⟨rfl, rfl, rfl, rfl, rfl,
          annual_incentive_eq_rate (prices.getD (_band_index_sl sl) 0 * (qv / ag) * sl)
            (if sl ≤ 50 then 2 else 5) (by split_ifs <;> simp), rfl⟩

/-- Characterisation of every `Result` produced by
`calc_pv_accumulo`, including its advisory notes. -/
lemma calc_pv_accumulo_ok (c p cost st cst : ℚ) (bonus : ℤ) (pub : Bool)
    (r : Result ℚ PvDetails)
    (h : calc_pv_accumulo c p cost st cst bonus pub = .ok r) :
    r.details.Imax_pdc = c ∧
    r.n_rates = (if pv_itot_of r.details ≤ 15000 then 1 else 2) ∧
    r.total_incentive_eur = _round2 (pv_itot_of r.details) ∧
    r.annual_rate_eur = _round2 (pv_itot_of r.details / (r.n_rates : ℚ)) ∧
    r.annual_incentive_eur = _round2 (pv_itot_of r.details / (r.n_rates : ℚ)) ∧
    r.notes = (if pub then [pv_pub_note] else [pv_perc_note bonus]) ++
      (if pv_itot_of r.details < r.details.itot_raw then [imax_note] else []) := by
  unfold calc_pv_accumulo at h
  cases hcap : pv_cftv_max p with
  | error e => simp only [hcap] at h; exact absurd h (by simp)
  | ok cap =>
    simp only [hcap, Except.ok.injEq] at h
    subst h
    refine ⟨rfl, rfl, rfl, rfl, ?_, ?_⟩
    · exact congrArg _round2 (annual_incentive_eq_rate' _ _)
    · simp only [pv_itot_of]
      split_ifs <;> simp

/-- Characterisation of every `Result` produced by `calc_ev`. -/
lemma calc_ev_ok (c cost : ℚ) (cat : String) (pw : Option ℚ)
    (r : Result ℚ EvDetails)
    (h : calc_ev c cost cat pw = .ok r) :
    r.details.Imax_pdc = c ∧
    r.n_rates = (if ev_itot_of r.details ≤ 15000 then 1 else 2) ∧
    r.total_incentive_eur = _round2 (ev_itot_of r.details) ∧
    r.annual_rate_eur = _round2 (ev_itot_of r.details / (r.n_rates : ℚ)) ∧
    r.annual_incentive_eur = _round2 (ev_itot_of r.details / (r.n_rates : ℚ)) := by
  unfold calc_ev at h
  cases hmax : ev_cost_max cat pw with
  | error e => simp only [hmax] at h; exact absurd h (by simp)
  | ok cmax =>
    simp only [hmax, Except.ok.injEq] at h
    subst h
    exact ⟨rfl, rfl, rfl, rfl, congrArg _round2 (annual_incentive_eq_rate' _ _)⟩

/-- Two projections of the payload agree on `toOption.map` as soon as
they agree on every successfully returned value. -/
lemma toOption_map_congr {ε α β : Type} (x : Except ε α) (f g : α → β)
    (h : ∀ r, x = .ok r → f r = g r) :
    x.toOption.map f = x.toOption.map g := by
  cases x with
  | error e => rfl
  | ok r => simpa [Except.toOption] using h r rfl

/-! ## Claims -/

/-- C1 (amended): in every calculator the identity `total = per-period
incentive × n_rates` holds exactly on the unrounded values: the
`Result`'s rounded fields are `total_incentive_eur = _round2 T`,
`annual_rate_eur = annual_incentive_eur = _round2 (T / n_rates)` for
the calculator's unrounded total `T` (recovered from `details`), so the
two sides of the claimed identity agree before rounding but the rounded
fields themselves may differ by a few cents (see the counterexample). -/
theorem rounded_fields_are_roundings_of_common_total
    (z : Zone) (ty : String) (p : ℚ) (s : Option ℚ) (kp : ℚ) (c : Option ℚ)
    (sys : String) (boiler : ℚ)
    (zb : Zone) (dev : String) (pn red : ℝ)
    (app : String) (sl : ℚ) (n : ℕ) (ag : ℚ) (kind : CollectorKind) (q ql : Option ℚ)
    (cpv ppv cost st cst : ℚ) (bonus : ℤ) (pub : Bool)
    (cev coste : ℚ) (cat : String) (pw : Option ℚ) :
    ((calc_pdc_elettrica z ty p s kp c).toOption.map fun r =>
        (r.annual_incentive_eur, r.total_incentive_eur, r.annual_rate_eur)) =
      ((calc_pdc_elettrica z ty p s kp c).toOption.map fun r =>
        (_round2 (pdc_itot_of r.details / (r.n_rates : ℚ)),
          _round2 (pdc_itot_of r.details),
          _round2 (pdc_itot_of r.details / (r.n_rates : ℚ)))) ∧
    ((calc_ibrido z sys boiler ty p s kp c).toOption.map fun r =>
        (r.annual_incentive_eur, r.total_incentive_eur, r.annual_rate_eur)) =
      ((calc_ibrido z sys boiler ty p s kp c).toOption.map fun r =>
        (_round2 (ibrido_itot_of r.details / (r.n_rates : ℚ)),
          _round2 (ibrido_itot_of r.details),
          _round2 (ibrido_itot_of r.details / (r.n_rates : ℚ)))) ∧
    ((calc_biomassa zb dev pn red).toOption.map fun r =>
        (r.annual_incentive_eur, r.total_incentive_eur, r.annual_rate_eur)) =
      ((calc_biomassa zb dev pn red).toOption.map fun r =>
        (_round2 (biomassa_itot_of r.details / (r.n_rates : ℝ)),
          _round2 (biomassa_itot_of r.details),
          _round2 (biomassa_itot_of r.details / (r.n_rates : ℝ)))) ∧
    ((calc_solare_termico app sl n ag kind q ql).toOption.map fun r =>
        (r.annual_incentive_eur, r.total_incentive_eur, r.annual_rate_eur)) =
      ((calc_solare_termico app sl n ag kind q ql).toOption.map fun r =>
        (_round2 (solare_itot_of r.details / (r.n_rates : ℚ)),
          _round2 (solare_itot_of r.details),
          _round2 (solare_itot_of r.details / (r.n_rates : ℚ)))) ∧
    ((calc_pv_accumulo cpv ppv cost st cst bonus pub).toOption.map fun r =>
        (r.annual_incentive_eur, r.total_incentive_eur, r.annual_rate_eur)) =
      ((calc_pv_accumulo cpv ppv cost st cst bonus pub).toOption.map fun r =>
        (_round2 (pv_itot_of r.details / (r.n_rates : ℚ)),
          _round2 (pv_itot_of r.details),
          _round2 (pv_itot_of r.details / (r.n_rates : ℚ)))) ∧
    ((calc_ev cev coste cat pw).toOption.map fun r =>
        (r.annual_incentive_eur, r.total_incentive_eur, r.annual_rate_eur)) =
      ((calc_ev cev coste cat pw).toOption.map fun r =>
        (_round2 (ev_itot_of r.details / (r.n_rates : ℚ)),
          _round2 (ev_itot_of r.details),
          _round2 (ev_itot_of r.details / (r.n_rates : ℚ)))) := by
  refine ⟨?_, ?_, ?_, ?_, ?_, ?_⟩
  · refine toOption_map_congr _ _ _ fun r hr => ?_
    obtain ⟨-, -, -, h4, h5, h6⟩ := calc_pdc_elettrica_ok z ty p s kp c r hr
    rw [h4, h5, h6]
  · refine toOption_map_congr _ _ _ fun r hr => ?_
    obtain ⟨-, -, h3, h4, h5⟩ := calc_ibrido_ok z sys boiler ty p s kp c r hr
    rw [h3, h4, h5]
  · refine toOption_map_congr _ _ _ fun r hr => ?_
    obtain ⟨-, -, h3, h4, h5⟩ := calc_biomassa_ok zb dev pn red r hr
    rw [h3, h4, h5]
  · refine toOption_map_congr _ _ _ fun r hr => ?_
    obtain ⟨-, -, -, h4, h5, h6, -⟩ := calc_solare_termico_ok app sl n ag kind q ql r hr
    rw [h4, h5, h6]
  · refine toOption_map_congr _ _ _ fun r hr => ?_
    obtain ⟨-, -, h3, h4, h5, -⟩ := calc_pv_accumulo_ok cpv ppv cost st cst bonus pub r hr
    rw [h3, h4, h5]
  · refine toOption_map_congr _ _ _ fun r hr => ?_
    obtain ⟨-, -, h3, h4, h5⟩ := calc_ev_ok cev coste cat pw r hr
    rw [h3, h4, h5]

/-- C1 (counterexample): for the heat pump at zone A, `aria_acqua`,
`Prated = 100`, `SCOP = 7`, `kp = 1` the unrounded total is `108000/7`
and the unrounded rate `21600/7`; after 2-decimal rounding the fields
read `15428.57` and `3085.71`, and `3085.71 × 5 ≠ 15428.57`, so the
claimed identity fails on the rounded output fields (for both
`annual_rate_eur` and `annual_incentive_eur`, which coincide). -/
theorem rounded_total_ne_rounded_rate_times_n :
    ((calc_pdc_elettrica .A "aria_acqua" 100 (some 7) 1 none).toOption.map fun r =>
      (r.annual_incentive_eur, r.total_incentive_eur, r.n_rates, r.annual_rate_eur)) =
      some (3085.71, 15428.57, 5, 3085.71) ∧
    (3085.71 : ℚ) * 5 ≠ (15428.57 : ℚ) := by
  constructor
  · have h1 : lower_strip "aria_acqua" = "aria_acqua" := by decide
    simp only [calc_pdc_elettrica, pdc_ci, h1, PDC_Quf, _annualities_by_threshold,
      _round2, Except.toOption]
    norm_num [round_eq, show ("aria_acqua" : String) ≠ "aria_aria_split" by decide,
      show ("aria_acqua" : String) ≠ "fixed_double_duct" by decide,
      show ("aria_acqua" : String) ≠ "aria_aria_vrf" by decide,
      show ("aria_acqua" : String) ≠ "aria_aria_rooftop" by decide]
  · norm_num

/-- C2: in every calculator the instalment count of a returned
`Result` is 1 whenever the computed (unrounded) total incentive is
`≤ 15000`, and otherwise equals the technology default: 2 when the
size input (rated power, nominal power, collector area) is `≤` the
calculator's threshold (35 kW, or 50 m² for solar thermal) and 5
otherwise, with the PV and EV add-ons using the fixed default 2. -/
theorem n_rates_threshold_rule
    (z : Zone) (ty : String) (p : ℚ) (s : Option ℚ) (kp : ℚ) (c : Option ℚ)
    (sys : String) (boiler : ℚ)
    (zb : Zone) (dev : String) (pn red : ℝ)
    (app : String) (sl : ℚ) (n : ℕ) (ag : ℚ) (kind : CollectorKind) (q ql : Option ℚ)
    (cpv ppv cost st cst : ℚ) (bonus : ℤ) (pub : Bool)
    (cev coste : ℚ) (cat : String) (pw : Option ℚ) :
    ((calc_pdc_elettrica z ty p s kp c).toOption.map Result.n_rates) =
      ((calc_pdc_elettrica z ty p s kp c).toOption.map fun r =>
        if pdc_itot_of r.details ≤ 15000 then 1 else pdc_default_of r.details) ∧
    ((calc_ibrido z sys boiler ty p s kp c).toOption.map Result.n_rates) =
      ((calc_ibrido z sys boiler ty p s kp c).toOption.map fun r =>
        if ibrido_itot_of r.details ≤ 15000 then 1 else ibrido_default_of r.details) ∧
    ((calc_biomassa zb dev pn red).toOption.map Result.n_rates) =
      ((calc_biomassa zb dev pn red).toOption.map fun r =>
        if biomassa_itot_of r.details ≤ 15000 then 1 else biomassa_default_of r.details) ∧
    ((calc_solare_termico app sl n ag kind q ql).toOption.map Result.n_rates) =
      ((calc_solare_termico app sl n ag kind q ql).toOption.map fun r =>
        if solare_itot_of r.details ≤ 15000 then 1 else solare_default_of r.details) ∧
    ((calc_pv_accumulo cpv ppv cost st cst bonus pub).toOption.map Result.n_rates) =
      ((calc_pv_accumulo cpv ppv cost st cst bonus pub).toOption.map fun r =>
        if pv_itot_of r.details ≤ 15000 then 1 else 2) ∧
    ((calc_ev cev coste cat pw).toOption.map Result.n_rates) =
      ((calc_ev cev coste cat pw).toOption.map fun r =>
        if ev_itot_of r.details ≤ 15000 then 1 else 2) := by
  refine ⟨?_, ?_, ?_, ?_, ?_, ?_⟩
  · exact toOption_map_congr _ _ _ fun r hr =>
      (calc_pdc_elettrica_ok z ty p s kp c r hr).2.2.1
  · exact toOption_map_congr _ _ _ fun r hr =>
      (calc_ibrido_ok z sys boiler ty p s kp c r hr).2.1
  · exact toOption_map_congr _ _ _ fun r hr =>
      (calc_biomassa_ok zb dev pn red r hr).2.1
  · exact toOption_map_congr _ _ _ fun r hr =>
      (calc_solare_termico_ok app sl n ag kind q ql r hr).2.2.1
  · exact toOption_map_congr _ _ _ fun r hr =>
      (calc_pv_accumulo_ok cpv ppv cost st cst bonus pub r hr).2.1
  · exact toOption_map_congr _ _ _ fun r hr =>
      (calc_ev_ok cev coste cat pw r hr).2.1

/-- C3 (amended): the heat pump at zone D, `aria_acqua`, 10 kW,
`SCOP = 4`, `kp = 1` yields zone coefficient 1400, unit price 0.15,
usable heat 14000, consumed-energy-equivalent 10500, an annual
incentive before the single-instalment collapse of `Ei × Ci = 1575`,
total 3150.00 and exactly 1 instalment of 3150.00; the `Result`'s
annual-incentive field however reports 3150.00, not 1575.00, because
with a single instalment the code shows the total there. -/
theorem heatpump_zoneD_example :
    ((calc_pdc_elettrica .D "aria_acqua" 10 (some 4) 1 none).toOption.map fun r =>
      (r.details.Quf, r.details.Ci_eur_per_kWht, r.details.Qu_kWht, r.details.Ei_kWht,
        r.details.Ei_kWht * r.details.Ci_eur_per_kWht,
        r.annual_incentive_eur, r.total_incentive_eur, r.n_rates, r.annual_rate_eur)) =
      some (1400, 0.15, 14000, 10500, 1575, 3150, 3150, 1, 3150) := by
  have h1 : lower_strip "aria_acqua" = "aria_acqua" := by decide
  simp only [calc_pdc_elettrica, pdc_ci, h1, PDC_Quf, _annualities_by_threshold,
    _round2, Except.toOption]
  norm_num [round_eq, show ("aria_acqua" : String) ≠ "aria_aria_split" by decide,
    show ("aria_acqua" : String) ≠ "fixed_double_duct" by decide,
    show ("aria_acqua" : String) ≠ "aria_aria_vrf" by decide,
    show ("aria_acqua" : String) ≠ "aria_aria_rooftop" by decide]

/-- C3 (counterexample): at the claimed input the `Result`'s
annual-incentive field is 3150.00, not the claimed 1575.00: after the
collapse to a single instalment the code stores the total in
`annual_incentive_eur`. -/
theorem heatpump_zoneD_annual_field_is_total :
    ((calc_pdc_elettrica .D "aria_acqua" 10 (some 4) 1 none).toOption.map fun r =>
      r.annual_incentive_eur) = some 3150 ∧ (3150 : ℚ) ≠ 1575 := by
  constructor
  · have h1 : lower_strip "aria_acqua" = "aria_acqua" := by decide
    simp only [calc_pdc_elettrica, pdc_ci, h1, PDC_Quf, _annualities_by_threshold,
      _round2, Except.toOption]
    norm_num [round_eq, show ("aria_acqua" : String) ≠ "aria_aria_split" by decide,
      show ("aria_acqua" : String) ≠ "fixed_double_duct" by decide,
      show ("aria_acqua" : String) ≠ "aria_aria_vrf" by decide,
      show ("aria_acqua" : String) ≠ "aria_aria_rooftop" by decide]
  · norm_num

/-- C5: on the `fixed_double_duct` branch the consumed-energy
equivalent is `Qu * (1 - 1/COP35) * 2.6` — the forced factor 2.6
replaces the caller-supplied `kp`, which does not occur in it — and
the advisory note is emitted; with `COP35` missing the calculation
fails, and for every other technology it fails when `SCOP` is
missing. -/
theorem fdd_forces_kp_and_missing_coefficients_fail
    (z : Zone) (ty ty₂ : String) (p p₂ : ℚ) (s : Option ℚ) (kp kp₂ : ℚ)
    (cop : ℚ) (c₂ : Option ℚ)
    (hty : lower_strip ty = "fixed_double_duct")
    (hty₂ : lower_strip ty₂ ≠ "fixed_double_duct")
    (hp : p ≤ 12) :
    ((calc_pdc_elettrica z ty p s kp (some cop)).toOption.map fun r =>
        (r.details.Ei_kWht, r.notes)) =
      some (p * PDC_Quf z * (1 - 1 / cop) * 2.6, [fdd_note]) ∧
    (calc_pdc_elettrica z ty p s kp none).toOption = none ∧
    (calc_pdc_elettrica z ty₂ p₂ none kp₂ c₂).toOption = none := by
  have hci : pdc_ci ty p = .ok 0.200 := by
    simp only [pdc_ci, hty, String.reduceEq, reduceIte]
    rw [if_neg (not_lt.mpr hp)]
  refine ⟨?_, ?_, ?_⟩
  · simp only [calc_pdc_elettrica, hci, hty, String.reduceEq, reduceIte, Except.toOption, Option.map]
  · simp only [calc_pdc_elettrica, hci, hty, String.reduceEq, reduceIte, Except.toOption]
  · cases hc2 : pdc_ci ty₂ p₂ with
    | error e => simp only [calc_pdc_elettrica, hc2, Except.toOption]
    | ok ci =>
      simp only [calc_pdc_elettrica, hc2]
      rw [if_neg hty₂]
      rfl

/-- C10: on the `fixed_double_duct` branch the `details` mapping
reports the caller-supplied `kp` under the key `kp`, even though the
consumed-energy equivalent `Ei_kWht` recorded next to it was computed
with the forced override 2.6 (and does not involve `kp` at all). -/
theorem fdd_details_report_caller_kp
    (z : Zone) (ty : String) (p : ℚ) (s : Option ℚ) (kp cop : ℚ)
    (hty : lower_strip ty = "fixed_double_duct")
    (hp : p ≤ 12) :
    ((calc_pdc_elettrica z ty p s kp (some cop)).toOption.map fun r =>
        (r.details.kp, r.details.SCOP, r.details.COP35, r.details.Ei_kWht)) =
      some (kp, s, some cop, p * PDC_Quf z * (1 - 1 / cop) * 2.6) := by
  have hci : pdc_ci ty p = .ok 0.200 := by
    simp only [pdc_ci, hty, String.reduceEq, reduceIte]
    rw [if_neg (not_lt.mpr hp)]
  simp only [calc_pdc_elettrica, hci, hty, String.reduceEq, reduceIte, Except.toOption, Option.map]

/-- C6: the split-type heat pump errors at every rated power strictly
above its 12 kW ceiling and returns the unit price 0.070 at every
positive rated power up to and including the ceiling. -/
theorem split_ceiling_is_inclusive
    (z : Zone) (s : Option ℚ) (kp : ℚ) (c : Option ℚ) (p₁ p₂ : ℚ)
    (h₁ : 12 < p₁) (_h₂ : 0 < p₂) (h₃ : p₂ ≤ 12) :
    (calc_pdc_elettrica z "aria_aria_split" p₁ s kp c).toOption = none ∧
    pdc_ci "aria_aria_split" p₂ = .ok 0.070 := by
  have hns : lower_strip "aria_aria_split" = "aria_aria_split" := by decide
  constructor
  · have hci : pdc_ci "aria_aria_split" p₁ =
        .error "aria_aria_split valido solo per Prated <= 12 kW (Tabella 9)." := by
      simp only [pdc_ci, hns, String.reduceEq, reduceIte]
      rw [if_pos h₁]
    simp only [calc_pdc_elettrica, hci, Except.toOption]
  · simp only [pdc_ci, hns, String.reduceEq, reduceIte]
    rw [if_neg (not_lt.mpr h₃)]

/-- C9: with system category `bivalente_addon` and a boiler of nominal
power `≤ 35` kW the multiplier is 1.0, so the hybrid calculator
returns the same annual incentive, total incentive, instalment count
and per-instalment amount as the plain heat-pump calculator on the
same inputs (and propagates exactly its errors). -/
theorem bivalente_small_boiler_equals_heatpump
    (z : Zone) (boiler : ℚ) (ty : String) (p : ℚ) (s : Option ℚ)
    (kp : ℚ) (c : Option ℚ) (h : boiler ≤ 35) :
    (calc_ibrido z "bivalente_addon" boiler ty p s kp c).map (fun r =>
      (r.annual_incentive_eur, r.total_incentive_eur, r.n_rates, r.annual_rate_eur)) =
    (calc_pdc_elettrica z ty p s kp c).map (fun r =>
      (r.annual_incentive_eur, r.total_incentive_eur, r.n_rates, r.annual_rate_eur)) := by
  have hbn : lower_strip "bivalente_addon" = "bivalente_addon" := by decide
  have hk : hybrid_k "bivalente_addon" boiler = .ok 1 := by
    simp only [hybrid_k, hbn, String.reduceEq, reduceIte]
    rw [if_pos h]
    norm_num
  cases hb : calc_pdc_elettrica z ty p s kp c with
  | error e => simp only [calc_ibrido, hb, Except.map]
  | ok base =>
    obtain ⟨hP, -, hn, htot, hrate, hann⟩ := calc_pdc_elettrica_ok z ty p s kp c base hb
    simp only [calc_ibrido, hb, hk, Except.map, Except.ok.injEq]
    rw [hann, hrate, htot, hn]
    simp only [pdc_itot_of, pdc_default_of, hP, mul_one, _annualities_by_threshold]
    have e1 := annual_incentive_eq_rate
      (base.details.Ei_kWht * base.details.Ci_eur_per_kWht)
      (if p ≤ 35 then (2 : ℕ) else 5) (by split_ifs <;> simp)
    simp only [_annualities_by_threshold] at e1
    rw [e1]

/-- C7: with a recognised application, the branch-required yield
figure present and a positive module area, the solar-thermal
calculator always returns a `Result` — an area mismatch never fails
it; the mismatch note is present exactly when `|modules × Ag − Sl|`
exceeds 5% of the declared `Sl`, and the monetary outputs, unit price,
per-area yield and band index do not depend on the module count at
all (they are functions of the declared area and the other inputs). -/
theorem solare_mismatch_is_advisory_only
    (app : String) (sl : ℚ) (n n₂ : ℕ) (ag : ℚ) (kind : CollectorKind)
    (q ql : Option ℚ)
    (happ : (SOLAR_CI (lower_strip app)).isSome = true)
    (hql : kind = CollectorKind.factory_made → ql.isSome = true)
    (hq : kind ≠ CollectorKind.factory_made → q.isSome = true)
    (_hag : 0 < ag) :
    (calc_solare_termico app sl n ag kind q ql).toOption.isSome = true ∧
    ((calc_solare_termico app sl n ag kind q ql).toOption.map Result.notes) =
      some (if |(n : ℚ) * ag - sl| / max sl 1e-9 > 0.05 then
        [solare_mismatch_note sl ((n : ℚ) * ag)] else []) ∧
    ((calc_solare_termico app sl n ag kind q ql).toOption.map fun r =>
        (r.annual_incentive_eur, r.total_incentive_eur, r.n_rates, r.annual_rate_eur,
          r.details.Ci_eur_per_kWht, r.details.Qu_kWht_per_m2, r.details.band_index)) =
      ((calc_solare_termico app sl n₂ ag kind q ql).toOption.map fun r =>
        (r.annual_incentive_eur, r.total_incentive_eur, r.n_rates, r.annual_rate_eur,
          r.details.Ci_eur_per_kWht, r.details.Qu_kWht_per_m2, r.details.band_index)) := by
  obtain ⟨prices, hpr⟩ := Option.isSome_iff_exists.mp happ
  cases kind with
  | factory_made =>
    obtain ⟨qlv, hqlv⟩ := Option.isSome_iff_exists.mp (hql rfl)
    subst hqlv
    simp only [calc_solare_termico, hpr, Except.toOption, Option.map]
    refine ⟨?_, ?_, ?_⟩ <;> first | rfl | trivial
  | piano_sottovuoto =>
    obtain ⟨qv, hqv⟩ := Option.isSome_iff_exists.mp (hq (by simp))
    subst hqv
    simp only [calc_solare_termico, hpr, Except.toOption, Option.map]
    refine ⟨?_, ?_, ?_⟩ <;> first | rfl | trivial
  | concentrazione =>
    obtain ⟨qv, hqv⟩ := Option.isSome_iff_exists.mp (hq (by simp))
    subst hqv
    simp only [calc_solare_termico, hpr, Except.toOption, Option.map]
    refine ⟨?_, ?_, ?_⟩ <;> first | rfl | trivial

/-- The percentage note can never collide with the clamp note: it
starts with `%`, the clamp note with `A`. -/
lemma pv_perc_note_ne_imax_note (b : ℤ) : pv_perc_note b ≠ imax_note := by
  intro hco
  have hd : (pv_perc_note b).data.head? = imax_note.data.head? := by rw [hco]
  have h1 : (pv_perc_note b).data.head? = some '%' := by
    unfold pv_perc_note
    rw [String.data_append, String.data_append, String.data_append,
      String.data_append]
    rw [show ("%spesa = 20% + " : String).data = '%' :: ("spesa = 20% + " : String).data
      from rfl]
    rfl
  have h2 : imax_note.data.head? = some 'A' := rfl
  rw [h1, h2] at hd
  exact absurd hd (by decide)

/-- C8: whenever the raw PV incentive strictly exceeds the supplied
primary-generator total (a 2-decimal monetary amount), the returned
total equals that ceiling exactly and the clamp note is in the notes
list; otherwise the total is the (rounded) raw incentive and the clamp
note is absent. -/
theorem pv_clamped_by_primary_total
    (c p cost st cst : ℚ) (bonus : ℤ) (pub : Bool)
    (hc : _round2 c = c) :
    ((calc_pv_accumulo c p cost st cst bonus pub).toOption.map fun r =>
        (r.total_incentive_eur, decide (imax_note ∈ r.notes))) =
      ((calc_pv_accumulo c p cost st cst bonus pub).toOption.map fun r =>
        if r.details.Imax_pdc < r.details.itot_raw then (r.details.Imax_pdc, true)
        else (_round2 r.details.itot_raw, false)) := by
  refine toOption_map_congr _ _ _ fun r hr => ?_
  obtain ⟨hI, -, htot, -, -, hnotes⟩ :=
    calc_pv_accumulo_ok c p cost st cst bonus pub r hr
  by_cases hlt : r.details.Imax_pdc < r.details.itot_raw
  · rw [if_pos hlt]
    have hmin : pv_itot_of r.details = r.details.Imax_pdc :=
      min_eq_right (le_of_lt hlt)
    rw [Prod.mk.injEq]
    constructor
    · rw [htot, hmin, hI, hc]
    · have : imax_note ∈ r.notes := by
        rw [hnotes, hmin]
        simp [hlt]
      simp [this]
  · rw [if_neg hlt]
    have hmin : pv_itot_of r.details = r.details.itot_raw :=
      min_eq_left (not_lt.mp hlt)
    rw [Prod.mk.injEq]
    constructor
    · rw [htot, hmin]
    · have : imax_note ∉ r.notes := by
        rw [hnotes, hmin]
        simp only [lt_irrefl, if_false, if_neg (lt_irrefl _), List.append_nil]
        cases pub with
        | true =>
          simp only [if_true, List.mem_singleton]
          decide
        | false =>
          simp only [if_false, List.mem_singleton, Bool.false_eq_true, reduceIte]
          exact fun hmem => pv_perc_note_ne_imax_note bonus hmem.symm
      simp [this]

/-! ## Sign of the rounded monetary fields -/

lemma round2_nonneg {α : Type} [LinearOrderedField α] [FloorRing α]
    {x : α} (hx : 0 ≤ x) : 0 ≤ _round2 x := by
  unfold _round2
  have h1 : (0 : ℤ) ≤ round (100 * x) := by
    rw [round_eq]
    exact Int.le_floor.mpr (by push_cast; linarith)
  have h2 : (0 : α) ≤ ((round (100 * x) : ℤ) : α) := by exact_mod_cast h1
  exact div_nonneg h2 (by norm_num)

lemma round2_le_add {α : Type} [LinearOrderedField α] [FloorRing α]
    (x : α) : _round2 x ≤ x + 1 / 200 := by
  unfold _round2
  rw [round_eq]
  have h := Int.floor_le (100 * x + 1 / 2)
  have h2 : ((⌊100 * x + 1 / 2⌋ : ℤ) : α) / 100 ≤ (100 * x + 1 / 2) / 100 :=
    (div_le_div_iff_of_pos_right (by norm_num : (0 : α) < 100)).mpr h
  calc ((⌊100 * x + 1 / 2⌋ : ℤ) : α) / 100 ≤ (100 * x + 1 / 2) / 100 := h2
    _ = x + 1 / 200 := by ring

lemma PDC_Quf_nonneg (z : Zone) : 0 ≤ PDC_Quf z := by
  cases z <;> norm_num [PDC_Quf]

lemma BIOMASS_HR_nonneg (z : Zone) : (0 : ℝ) ≤ BIOMASS_HR z := by
  cases z <;> norm_num [BIOMASS_HR]

lemma ite_nonneg {α : Type} [Zero α] [Preorder α] (c : Prop) [Decidable c]
    {a b : α} (ha : 0 ≤ a) (hb : 0 ≤ b) : 0 ≤ if c then a else b := by
  split_ifs <;> assumption

set_option maxHeartbeats 2000000 in
lemma pdc_ci_nonneg (ty : String) (p ci : ℚ) (h : pdc_ci ty p = .ok ci) :
    0 ≤ ci := by
  unfold pdc_ci at h
  generalize lower_strip ty = t at h
  simp only [] at h
  split_ifs at h <;>
    first
    | exact Except.noConfusion h
    | (simp only [Except.ok.injEq] at h; subst h; norm_num)

lemma efficiency_factor_nonneg {α : Type} [LinearOrderedField α]
    {e : α} (he : 1 ≤ e) : 0 ≤ 1 - 1 / e := by
  have h0 : (0 : α) < e := lt_of_lt_of_le one_pos he
  have h1 : 1 / e ≤ 1 := by
    rw [div_le_one h0]
    exact he
  linarith

/-- Non-negativity of the heat-pump `Result`, including the unrounded
intermediates, under positive power, non-negative `kp` and efficiency
coefficients `≥ 1`. -/
lemma calc_pdc_elettrica_nonneg (z : Zone) (ty : String) (p : ℚ)
    (s : Option ℚ) (kp : ℚ) (c : Option ℚ) (r : Result ℚ PdcDetails)
    (h : calc_pdc_elettrica z ty p s kp c = .ok r)
    (hp : 0 ≤ p) (hkp : 0 ≤ kp) (hs : 1 ≤ s.getD 1) (hc : 1 ≤ c.getD 1) :
    0 ≤ r.details.Ei_kWht ∧ 0 ≤ r.details.Ci_eur_per_kWht ∧
    0 ≤ r.annual_incentive_eur ∧ 0 ≤ r.total_incentive_eur ∧
    0 ≤ r.annual_rate_eur := by
  unfold calc_pdc_elettrica at h
  cases hci : pdc_ci ty p with
  | error e => simp only [hci] at h; exact absurd h (by simp)
  | ok ci =>
    have hci0 := pdc_ci_nonneg ty p ci hci
    simp only [hci] at h
    by_cases hty : lower_strip ty = "fixed_double_duct"
    · rw [if_pos hty] at h
      cases c with
      | none => simp at h
      | some cop =>
        simp only [Option.getD_some] at hc
        simp only [Except.ok.injEq] at h
        subst h
        have hei : 0 ≤ p * PDC_Quf z * (1 - 1 / cop) * 2.6 :=
          mul_nonneg (mul_nonneg (mul_nonneg hp (PDC_Quf_nonneg z))
            (efficiency_factor_nonneg hc)) (by norm_num)
        have hia : 0 ≤ p * PDC_Quf z * (1 - 1 / cop) * 2.6 * ci :=
          mul_nonneg hei hci0
        have hitot : 0 ≤ p * PDC_Quf z * (1 - 1 / cop) * 2.6 * ci *
            (((if p ≤ 35 then 2 else 5) : ℕ) : ℚ) :=
          mul_nonneg hia (by positivity)
        exact ⟨hei, hci0, round2_nonneg (ite_nonneg _ hia hitot),
          round2_nonneg hitot,
          round2_nonneg (div_nonneg hitot (by positivity))⟩
    · rw [if_neg hty] at h
      cases s with
      | none => simp at h
      | some sc =>
        simp only [Option.getD_some] at hs
        simp only [Except.ok.injEq] at h
        subst h
        have hei : 0 ≤ p * PDC_Quf z * (1 - 1 / sc) * kp :=
          mul_nonneg (mul_nonneg (mul_nonneg hp (PDC_Quf_nonneg z))
            (efficiency_factor_nonneg hs)) hkp
        have hia : 0 ≤ p * PDC_Quf z * (1 - 1 / sc) * kp * ci :=
          mul_nonneg hei hci0
        have hitot : 0 ≤ p * PDC_Quf z * (1 - 1 / sc) * kp * ci *
            (((if p ≤ 35 then 2 else 5) : ℕ) : ℚ) :=
          mul_nonneg hia (by positivity)
        exact ⟨hei, hci0, round2_nonneg (ite_nonneg _ hia hitot),
          round2_nonneg hitot,
          round2_nonneg (div_nonneg hitot (by positivity))⟩

lemma hybrid_k_nonneg (sys : String) (b k : ℚ) (h : hybrid_k sys b = .ok k) :
    0 ≤ k := by
  unfold hybrid_k at h
  generalize lower_strip sys = t at h
  simp only [] at h
  split_ifs at h <;>
    first
    | exact Except.noConfusion h
    | (simp only [Except.ok.injEq] at h; subst h; norm_num)

/-- Non-negativity of the hybrid `Result` under the heat pump's
preconditions. -/
lemma calc_ibrido_nonneg (z : Zone) (sys : String) (boiler : ℚ)
    (ty : String) (p : ℚ) (s : Option ℚ) (kp : ℚ) (c : Option ℚ)
    (r : Result ℚ IbridoDetails)
    (h : calc_ibrido z sys boiler ty p s kp c = .ok r)
    (hp : 0 ≤ p) (hkp : 0 ≤ kp) (hs : 1 ≤ s.getD 1) (hc : 1 ≤ c.getD 1) :
    0 ≤ r.annual_incentive_eur ∧ 0 ≤ r.total_incentive_eur ∧
    0 ≤ r.annual_rate_eur := by
  unfold calc_ibrido at h
  cases hb : calc_pdc_elettrica z ty p s kp c with
  | error e => simp only [hb] at h; exact absurd h (by simp)
  | ok base =>
    obtain ⟨hei, hbci, -, -, -⟩ :=
      calc_pdc_elettrica_nonneg z ty p s kp c base hb hp hkp hs hc
    simp only [hb] at h
    cases hk : hybrid_k sys boiler with
    | error e => simp only [hk] at h; exact absurd h (by simp)
    | ok k =>
      have hk0 := hybrid_k_nonneg sys boiler k hk
      simp only [hk, Except.ok.injEq] at h
      subst h
      have hia : 0 ≤ base.details.Ei_kWht * base.details.Ci_eur_per_kWht * k :=
        mul_nonneg (mul_nonneg hei hbci) hk0
      have hitot : 0 ≤ base.details.Ei_kWht * base.details.Ci_eur_per_kWht * k *
          (((if p ≤ 35 then 2 else 5) : ℕ) : ℚ) :=
        mul_nonneg hia (by positivity)
      exact ⟨round2_nonneg (ite_nonneg _ hia hitot), round2_nonneg hitot,
        round2_nonneg (div_nonneg hitot (by positivity))⟩

lemma biomass_ci_nonneg (dev : String) (pn ci : ℝ)
    (h : biomass_ci dev pn = .ok ci) : 0 ≤ ci := by
  unfold biomass_ci at h
  generalize lower_strip dev = t at h
  simp only [] at h
  split_ifs at h <;>
    first
    | exact Except.noConfusion h
    | (simp only [Except.ok.injEq] at h; subst h; norm_num)

lemma biomass_ce_nonneg (red : ℝ) : 0 ≤ biomass_ce red := by
  unfold biomass_ce
  split_ifs <;> norm_num

/-- Non-negativity of the biomass `Result` under non-negative nominal
power, strengthened to `Pn ≥ 1` for the logarithmic stove branch. -/
lemma calc_biomassa_nonneg (z : Zone) (dev : String) (pn red : ℝ)
    (r : Result ℝ BiomassaDetails)
    (h : calc_biomassa z dev pn red = .ok r)
    (hpn : 0 ≤ pn) (hstove : lower_strip dev ≠ "caldaia" → 1 ≤ pn) :
    0 ≤ r.annual_incentive_eur ∧ 0 ≤ r.total_incentive_eur ∧
    0 ≤ r.annual_rate_eur := by
  unfold calc_biomassa at h
  cases hci : biomass_ci dev pn with
  | error e => simp only [hci] at h; exact absurd h (by simp)
  | ok ci =>
    have hci0 := biomass_ci_nonneg dev pn ci hci
    have hce0 := biomass_ce_nonneg red
    simp only [hci, Except.ok.injEq] at h
    subst h
    have hia : 0 ≤ if lower_strip dev = "caldaia" then
        pn * BIOMASS_HR z * ci * biomass_ce red
      else 3.35 * Real.log pn * BIOMASS_HR z * ci * biomass_ce red := by
      split_ifs with hd
      · exact mul_nonneg (mul_nonneg (mul_nonneg hpn (BIOMASS_HR_nonneg z)) hci0) hce0
      · have hlog : 0 ≤ Real.log pn := Real.log_nonneg (hstove hd)
        exact mul_nonneg (mul_nonneg (mul_nonneg
          (mul_nonneg (by norm_num) hlog) (BIOMASS_HR_nonneg z)) hci0) hce0
    have hitot : 0 ≤ (if lower_strip dev = "caldaia" then
        pn * BIOMASS_HR z * ci * biomass_ce red
      else 3.35 * Real.log pn * BIOMASS_HR z * ci * biomass_ce red) *
        (((if pn ≤ 35 then 2 else 5) : ℕ) : ℝ) :=
      mul_nonneg hia (by positivity)
    exact ⟨round2_nonneg (ite_nonneg _ hia hitot), round2_nonneg hitot,
      round2_nonneg (div_nonneg hitot (by positivity))⟩

lemma SOLAR_CI_nonneg (a : String) (prices : List ℚ) (i : ℕ)
    (h : SOLAR_CI a = some prices) : 0 ≤ prices.getD i 0 := by
  unfold SOLAR_CI at h
  split_ifs at h <;>
    first
    | exact Option.noConfusion h
    | (simp only [Option.some.injEq] at h; subst h;
       rcases i with _ | _ | _ | _ | _ | i <;> norm_num [List.getD])

/-- Non-negativity of the solar-thermal `Result` under non-negative
area and yield inputs. -/
lemma calc_solare_termico_nonneg (app : String) (sl : ℚ) (n : ℕ) (ag : ℚ)
    (kind : CollectorKind) (q ql : Option ℚ) (r : Result ℚ SolareDetails)
    (h : calc_solare_termico app sl n ag kind q ql = .ok r)
    (hsl : 0 ≤ sl) (hag : 0 ≤ ag) (hq : 0 ≤ q.getD 0) (hql : 0 ≤ ql.getD 0) :
    0 ≤ r.annual_incentive_eur ∧ 0 ≤ r.total_incentive_eur ∧
    0 ≤ r.annual_rate_eur := by
  unfold calc_solare_termico at h
  cases hso : SOLAR_CI (lower_strip app) with
  | none => simp only [hso] at h; exact absurd h (by simp)
  | some prices =>
    have hci0 := SOLAR_CI_nonneg (lower_strip app) prices (_band_index_sl sl) hso
    simp only [hso] at h
    have tail : ∀ qu : ℚ, 0 ≤ qu →
        ∀ notes kd nn,
        (Except.ok {
          intervention := "Solare termico"
          annual_incentive_eur := _round2 (if _annualities_by_threshold
            (prices.getD (_band_index_sl sl) 0 * qu * sl *
              (((if sl ≤ 50 then 2 else 5) : ℕ) : ℚ)) (if sl ≤ 50 then 2 else 5) ≠ 1
            then prices.getD (_band_index_sl sl) 0 * qu * sl
            else prices.getD (_band_index_sl sl) 0 * qu * sl *
              (((if sl ≤ 50 then 2 else 5) : ℕ) : ℚ))
          total_incentive_eur := _round2 (prices.getD (_band_index_sl sl) 0 * qu * sl *
            (((if sl ≤ 50 then 2 else 5) : ℕ) : ℚ))
          n_rates := _annualities_by_threshold
            (prices.getD (_band_index_sl sl) 0 * qu * sl *
              (((if sl ≤ 50 then 2 else 5) : ℕ) : ℚ)) (if sl ≤ 50 then 2 else 5)
          annual_rate_eur := _round2 ((prices.getD (_band_index_sl sl) 0 * qu * sl *
            (((if sl ≤ 50 then 2 else 5) : ℕ) : ℚ)) / ((_annualities_by_threshold
            (prices.getD (_band_index_sl sl) 0 * qu * sl *
              (((if sl ≤ 50 then 2 else 5) : ℕ) : ℚ)) (if sl ≤ 50 then 2 else 5) : ℕ) : ℚ))
          details := {
            application := lower_strip app
            Sl_m2 := sl
            Ci_eur_per_kWht := prices.getD (_band_index_sl sl) 0
            band_index := _band_index_sl sl
            collector_kind := kd
            modules_n := nn
            module_Ag_m2 := ag
            Qu_kWht_per_m2 := qu }
          notes := notes } : Except String (Result ℚ SolareDetails)) = .ok r →
        0 ≤ r.annual_incentive_eur ∧ 0 ≤ r.total_incentive_eur ∧
        0 ≤ r.annual_rate_eur := by
      intro qu hqu notes kd nn hok
      simp only [Except.ok.injEq] at hok
      subst hok
      have hia : 0 ≤ prices.getD (_band_index_sl sl) 0 * qu * sl :=
        mul_nonneg (mul_nonneg hci0 hqu) hsl
      have hitot : 0 ≤ prices.getD (_band_index_sl sl) 0 * qu * sl *
          (((if sl ≤ 50 then 2 else 5) : ℕ) : ℚ) :=
        mul_nonneg hia (by positivity)
      exact ⟨round2_nonneg (ite_nonneg _ hia hitot), round2_nonneg hitot,
        round2_nonneg (div_nonneg hitot (by positivity))⟩
    cases kind with
    | factory_made =>
      cases ql with
      | none => simp at h
      | some qlv =>
        simp only [Option.getD_some] at hql
        exact tail _ (div_nonneg (div_nonneg hql (by norm_num)) hag) _ _ _ h
    | piano_sottovuoto =>
      cases q with
      | none => simp at h
      | some qv =>
        simp only [Option.getD_some] at hq
        exact tail _ (div_nonneg hq hag) _ _ _ h
    | concentrazione =>
      cases q with
      | none => simp at h
      | some qv =>
        simp only [Option.getD_some] at hq
        exact tail _ (div_nonneg hq hag) _ _ _ h

lemma pv_cftv_max_nonneg (p cap : ℚ) (h : pv_cftv_max p = .ok cap) :
    0 ≤ cap := by
  unfold pv_cftv_max at h
  split_ifs at h <;>
    first
    | exact Except.noConfusion h
    | (simp only [Except.ok.injEq] at h; subst h; norm_num)

/-- Non-negativity of the PV + storage `Result` under non-negative
costs, sizes, bonus points and primary-generator ceiling. -/
lemma calc_pv_accumulo_nonneg (c p cost st cst : ℚ) (bonus : ℤ)
    (pub : Bool) (r : Result ℚ PvDetails)
    (h : calc_pv_accumulo c p cost st cst bonus pub = .ok r)
    (hc : 0 ≤ c) (hp : 0 ≤ p) (hcost : 0 ≤ cost) (hst : 0 ≤ st)
    (hcst : 0 ≤ cst) (hb : 0 ≤ bonus) :
    0 ≤ r.annual_incentive_eur ∧ 0 ≤ r.total_incentive_eur ∧
    0 ≤ r.annual_rate_eur := by
  unfold calc_pv_accumulo at h
  cases hcap : pv_cftv_max p with
  | error e => simp only [hcap] at h; exact absurd h (by simp)
  | ok cap =>
    have hcap0 := pv_cftv_max_nonneg p cap hcap
    simp only [hcap, Except.ok.injEq] at h
    subst h
    have hperc : 0 ≤ (if pub then (1.0 : ℚ) else 0.20 + (bonus : ℚ) / 100) := by
      split_ifs
      · norm_num
      · have hb' : (0 : ℚ) ≤ (bonus : ℚ) := by exact_mod_cast hb
        linarith
    have hcftv : 0 ≤ min (cost / p) cap := le_min (div_nonneg hcost hp) hcap0
    have hcacc : 0 ≤ (if st > 0 then min (cst / st) 1000.0 else 0.0) := by
      split_ifs
      · exact le_min (div_nonneg hcst hst) (by norm_num)
      · norm_num
    have hraw : 0 ≤ (if pub then (1.0 : ℚ) else 0.20 + (bonus : ℚ) / 100) *
        (min (cost / p) cap * p + (if st > 0 then min (cst / st) 1000.0 else 0.0) * st) :=
      mul_nonneg hperc (add_nonneg (mul_nonneg hcftv hp) (mul_nonneg hcacc hst))
    have hitot : 0 ≤ min ((if pub then (1.0 : ℚ) else 0.20 + (bonus : ℚ) / 100) *
        (min (cost / p) cap * p + (if st > 0 then min (cst / st) 1000.0 else 0.0) * st)) c :=
      le_min hraw hc
    exact ⟨round2_nonneg (ite_nonneg _ (div_nonneg hitot (by positivity)) hitot),
      round2_nonneg hitot, round2_nonneg (div_nonneg hitot (by positivity))⟩

lemma ev_cost_max_nonneg (cat : String) (pw : Option ℚ) (cmax : ℚ)
    (h : ev_cost_max cat pw = .ok cmax) (hpw : 0 ≤ pw.getD 0) :
    0 ≤ cmax := by
  unfold ev_cost_max at h
  generalize lower_strip cat = t at h
  cases pw with
  | none =>
    simp only [] at h
    split_ifs at h <;>
      first
      | exact Except.noConfusion h
      | (simp only [Except.ok.injEq] at h; subst h; norm_num)
  | some pw' =>
    simp only [Option.getD_some] at hpw
    simp only [] at h
    split_ifs at h <;>
      first
      | exact Except.noConfusion h
      | (simp only [Except.ok.injEq] at h; subst h;
         first
         | exact mul_nonneg (by norm_num) hpw
         | norm_num)

/-- Non-negativity of the EV-charging `Result` under non-negative
eligible cost, power and primary-generator ceiling. -/
lemma calc_ev_nonneg (c cost : ℚ) (cat : String) (pw : Option ℚ)
    (r : Result ℚ EvDetails)
    (h : calc_ev c cost cat pw = .ok r)
    (hc : 0 ≤ c) (hcost : 0 ≤ cost) (hpw : 0 ≤ pw.getD 0) :
    0 ≤ r.annual_incentive_eur ∧ 0 ≤ r.total_incentive_eur ∧
    0 ≤ r.annual_rate_eur := by
  unfold calc_ev at h
  cases hmax : ev_cost_max cat pw with
  | error e => simp only [hmax] at h; exact absurd h (by simp)
  | ok cmax =>
    have hcmax0 := ev_cost_max_nonneg cat pw cmax hmax hpw
    simp only [hmax, Except.ok.injEq] at h
    subst h
    have hused : 0 ≤ min cost cmax := le_min hcost hcmax0
    have hraw : 0 ≤ (0.30 : ℚ) * min cost cmax := mul_nonneg (by norm_num) hused
    have hitot : 0 ≤ min ((0.30 : ℚ) * min cost cmax) c := le_min hraw hc
    exact ⟨round2_nonneg (ite_nonneg _ (div_nonneg hitot (by positivity)) hitot),
      round2_nonneg hitot, round2_nonneg (div_nonneg hitot (by positivity))⟩

/-- C4 (amended): every monetary output (annual incentive, total
incentive, per-instalment amount) of every returned `Result` is
non-negative whenever the inputs are non-negative, the efficiency
coefficients are `≥ 1` — and, for biomass stoves/fireplaces only, the
nominal power is at least 1 kW: below 1 kW the logarithmic stove
formula is negative (see the counterexample), so `power > 0` alone is
not sufficient there. -/
theorem monetary_outputs_nonneg
    (z : Zone) (ty : String) (p : ℚ) (s : Option ℚ) (kp : ℚ) (c : Option ℚ)
    (sys : String) (boiler : ℚ)
    (zb : Zone) (dev : String) (pn red : ℝ)
    (app : String) (sl : ℚ) (n : ℕ) (ag : ℚ) (kind : CollectorKind) (q ql : Option ℚ)
    (cpv ppv cost st cst : ℚ) (bonus : ℤ) (pub : Bool)
    (cev coste : ℚ) (cat : String) (pw : Option ℚ)
    (hp : 0 ≤ p) (hkp : 0 ≤ kp) (hs : 1 ≤ s.getD 1) (hc : 1 ≤ c.getD 1)
    (hpn : 0 ≤ pn) (hstove : lower_strip dev ≠ "caldaia" → 1 ≤ pn)
    (hsl : 0 ≤ sl) (hag : 0 ≤ ag) (hq : 0 ≤ q.getD 0) (hql : 0 ≤ ql.getD 0)
    (hcpv : 0 ≤ cpv) (hppv : 0 ≤ ppv) (hcost : 0 ≤ cost) (hst : 0 ≤ st)
    (hcst : 0 ≤ cst) (hb : 0 ≤ bonus)
    (hcev : 0 ≤ cev) (hcoste : 0 ≤ coste) (hpw : 0 ≤ pw.getD 0) :
    ((calc_pdc_elettrica z ty p s kp c).toOption.map fun r =>
        (|r.annual_incentive_eur|, |r.total_incentive_eur|, |r.annual_rate_eur|)) =
      ((calc_pdc_elettrica z ty p s kp c).toOption.map fun r =>
        (r.annual_incentive_eur, r.total_incentive_eur, r.annual_rate_eur)) ∧
    ((calc_ibrido z sys boiler ty p s kp c).toOption.map fun r =>
        (|r.annual_incentive_eur|, |r.total_incentive_eur|, |r.annual_rate_eur|)) =
      ((calc_ibrido z sys boiler ty p s kp c).toOption.map fun r =>
        (r.annual_incentive_eur, r.total_incentive_eur, r.annual_rate_eur)) ∧
    ((calc_biomassa zb dev pn red).toOption.map fun r =>
        (|r.annual_incentive_eur|, |r.total_incentive_eur|, |r.annual_rate_eur|)) =
      ((calc_biomassa zb dev pn red).toOption.map fun r =>
        (r.annual_incentive_eur, r.total_incentive_eur, r.annual_rate_eur)) ∧
    ((calc_solare_termico app sl n ag kind q ql).toOption.map fun r =>
        (|r.annual_incentive_eur|, |r.total_incentive_eur|, |r.annual_rate_eur|)) =
      ((calc_solare_termico app sl n ag kind q ql).toOption.map fun r =>
        (r.annual_incentive_eur, r.total_incentive_eur, r.annual_rate_eur)) ∧
    ((calc_pv_accumulo cpv ppv cost st cst bonus pub).toOption.map fun r =>
        (|r.annual_incentive_eur|, |r.total_incentive_eur|, |r.annual_rate_eur|)) =
      ((calc_pv_accumulo cpv ppv cost st cst bonus pub).toOption.map fun r =>
        (r.annual_incentive_eur, r.total_incentive_eur, r.annual_rate_eur)) ∧
    ((calc_ev cev coste cat pw).toOption.map fun r =>
        (|r.annual_incentive_eur|, |r.total_incentive_eur|, |r.annual_rate_eur|)) =
      ((calc_ev cev coste cat pw).toOption.map fun r =>
        (r.annual_incentive_eur, r.total_incentive_eur, r.annual_rate_eur)) := by
  refine ⟨?_, ?_, ?_, ?_, ?_, ?_⟩
  · refine toOption_map_congr _ _ _ fun r hr => ?_
    obtain ⟨-, -, h1, h2, h3⟩ :=
      calc_pdc_elettrica_nonneg z ty p s kp c r hr hp hkp hs hc
    rw [abs_of_nonneg h1, abs_of_nonneg h2, abs_of_nonneg h3]
  · refine toOption_map_congr _ _ _ fun r hr => ?_
    obtain ⟨h1, h2, h3⟩ :=
      calc_ibrido_nonneg z sys boiler ty p s kp c r hr hp hkp hs hc
    rw [abs_of_nonneg h1, abs_of_nonneg h2, abs_of_nonneg h3]
  · refine toOption_map_congr _ _ _ fun r hr => ?_
    obtain ⟨h1, h2, h3⟩ := calc_biomassa_nonneg zb dev pn red r hr hpn hstove
    rw [abs_of_nonneg h1, abs_of_nonneg h2, abs_of_nonneg h3]
  · refine toOption_map_congr _ _ _ fun r hr => ?_
    obtain ⟨h1, h2, h3⟩ :=
      calc_solare_termico_nonneg app sl n ag kind q ql r hr hsl hag hq hql
    rw [abs_of_nonneg h1, abs_of_nonneg h2, abs_of_nonneg h3]
  · refine toOption_map_congr _ _ _ fun r hr => ?_
    obtain ⟨h1, h2, h3⟩ :=
      calc_pv_accumulo_nonneg cpv ppv cost st cst bonus pub r hr hcpv hppv hcost hst hcst hb
    rw [abs_of_nonneg h1, abs_of_nonneg h2, abs_of_nonneg h3]
  · refine toOption_map_congr _ _ _ fun r hr => ?_
    obtain ⟨h1, h2, h3⟩ := calc_ev_nonneg cev coste cat pw r hr hcev hcoste hpw
    rw [abs_of_nonneg h1, abs_of_nonneg h2, abs_of_nonneg h3]

/-- The biomass calculator's total at zone A, wood stove, `Pn = 1/2`
kW, 0% particulate reduction (0 when the call errors, which the
accompanying theorem shows it does not, since 0 is not negative). -/
noncomputable def stove_half_kw_total : ℝ :=
  ((calc_biomassa .A "stufa_termocamino_legna" (1 / 2) 0).toOption.map
    Result.total_incentive_eur).getD 0

/-- C4 (counterexample): at nominal power 1/2 kW — a valid input,
`power > 0` — the wood-stove branch `3.35 · ln(Pn) · hr · Ci · Ce` is
negative because `ln(1/2) < 0`, so the returned total incentive is a
negative monetary amount. -/
theorem stove_half_kw_total_neg : stove_half_kw_total < 0 := by
  have hls : lower_strip "stufa_termocamino_legna" = "stufa_termocamino_legna" := by
    decide
  have hci : biomass_ci "stufa_termocamino_legna" (1 / 2) = .ok 0.045 := by
    simp only [biomass_ci, hls, String.reduceEq, reduceIte]
  unfold stove_half_kw_total
  simp only [calc_biomassa, hci, hls, String.reduceEq, reduceIte, BIOMASS_HR,
    biomass_ce, Except.toOption, Option.map, Option.getD]
  rw [if_pos (by norm_num : (0 : ℝ) ≤ 20)]
  rw [if_pos (by norm_num : (1 / 2 : ℝ) ≤ 35)]
  refine lt_of_le_of_lt (round2_le_add _) ?_
  have hlog := Real.log_two_gt_d9
  have hinv : Real.log ((1 : ℝ) / 2) = -Real.log 2 := by
    rw [one_div, Real.log_inv]
  rw [hinv]
  push_cast
  nlinarith [hlog]

/-- Witness for C5 at a concrete input: zone D, `fixed_double_duct`
at 10 kW with `COP35 = 3.2`, and `aria_acqua` with no SCOP. -/
theorem fdd_forces_kp_witness :
    lower_strip "fixed_double_duct" = "fixed_double_duct" ∧
    lower_strip "aria_acqua" ≠ "fixed_double_duct" ∧
    (10 : ℚ) ≤ 12 ∧
    (((calc_pdc_elettrica .D "fixed_double_duct" 10 none 1 (some 3.2)).toOption.map
        fun r => (r.details.Ei_kWht, r.notes)) =
      some (10 * PDC_Quf .D * (1 - 1 / 3.2) * 2.6, [fdd_note]) ∧
    (calc_pdc_elettrica .D "fixed_double_duct" 10 none 1 none).toOption = none ∧
    (calc_pdc_elettrica .D "aria_acqua" 10 none 1 none).toOption = none) :=
  ⟨by decide, by decide, by norm_num,
    fdd_forces_kp_and_missing_coefficients_fail .D "fixed_double_duct" "aria_acqua"
      10 10 none 1 1 3.2 none (by decide) (by decide) (by norm_num)⟩

/-- Witness for C10 at a concrete input: `kp = 7/10` is reported in
the details while `Ei` was computed with 2.6. -/
theorem fdd_details_report_caller_kp_witness :
    lower_strip "fixed_double_duct" = "fixed_double_duct" ∧
    (10 : ℚ) ≤ 12 ∧
    ((calc_pdc_elettrica .D "fixed_double_duct" 10 (some 4) (7 / 10) (some 3.2)).toOption.map
        fun r => (r.details.kp, r.details.SCOP, r.details.COP35, r.details.Ei_kWht)) =
      some (7 / 10, some 4, some 3.2, 10 * PDC_Quf .D * (1 - 1 / 3.2) * 2.6) :=
  ⟨by decide, by norm_num,
    fdd_details_report_caller_kp .D "fixed_double_duct" 10 (some 4) (7 / 10) 3.2
      (by decide) (by norm_num)⟩

/-- Witness for C6 at the boundary: 13 kW errors, 12 kW (the ceiling
itself) succeeds. -/
theorem split_ceiling_is_inclusive_witness :
    (12 : ℚ) < 13 ∧ (0 : ℚ) < 12 ∧ (12 : ℚ) ≤ 12 ∧
    ((calc_pdc_elettrica .D "aria_aria_split" 13 (some 4) 1 none).toOption = none ∧
    pdc_ci "aria_aria_split" 12 = .ok 0.070) :=
  ⟨by norm_num, by norm_num, by norm_num,
    split_ceiling_is_inclusive .D (some 4) 1 none 13 12
      (by norm_num) (by norm_num) (by norm_num)⟩

/-- Witness for C7 at a concrete input: `acs`, declared area 20 m²,
flat-plate collectors, comparing module counts 10 (matching) and 5
(mismatching). -/
theorem solare_mismatch_is_advisory_only_witness :
    (SOLAR_CI (lower_strip "acs")).isSome = true ∧
    (CollectorKind.piano_sottovuoto = CollectorKind.factory_made →
      (none : Option ℚ).isSome = true) ∧
    (CollectorKind.piano_sottovuoto ≠ CollectorKind.factory_made →
      (some (1200 : ℚ)).isSome = true) ∧
    (0 : ℚ) < 2 ∧
    ((calc_solare_termico "acs" 20 10 2 .piano_sottovuoto (some 1200) none).toOption.isSome = true ∧
    ((calc_solare_termico "acs" 20 10 2 .piano_sottovuoto (some 1200) none).toOption.map
        Result.notes) =
      some (if |((10 : ℕ) : ℚ) * 2 - 20| / max 20 1e-9 > 0.05 then
        [solare_mismatch_note 20 (((10 : ℕ) : ℚ) * 2)] else []) ∧
    ((calc_solare_termico "acs" 20 10 2 .piano_sottovuoto (some 1200) none).toOption.map
        fun r => (r.annual_incentive_eur, r.total_incentive_eur, r.n_rates,
          r.annual_rate_eur, r.details.Ci_eur_per_kWht, r.details.Qu_kWht_per_m2,
          r.details.band_index)) =
      ((calc_solare_termico "acs" 20 5 2 .piano_sottovuoto (some 1200) none).toOption.map
        fun r => (r.annual_incentive_eur, r.total_incentive_eur, r.n_rates,
          r.annual_rate_eur, r.details.Ci_eur_per_kWht, r.details.Qu_kWht_per_m2,
          r.details.band_index))) :=
  ⟨by decide, by decide, by decide, by norm_num,
    solare_mismatch_is_advisory_only "acs" 20 10 5 2 .piano_sottovuoto (some 1200) none
      (by decide) (by decide) (by decide) (by norm_num)⟩

/-- Witness for C8 at a concrete input: a 10 kW PV system costing
15000 with a 1000-euro primary ceiling — the raw incentive 3000
exceeds the ceiling. -/
theorem pv_clamped_by_primary_total_witness :
    _round2 (1000 : ℚ) = 1000 ∧
    ((calc_pv_accumulo 1000 10 15000 0 0 0 false).toOption.map fun r =>
        (r.total_incentive_eur, decide (imax_note ∈ r.notes))) =
      ((calc_pv_accumulo 1000 10 15000 0 0 0 false).toOption.map fun r =>
        if r.details.Imax_pdc < r.details.itot_raw then (r.details.Imax_pdc, true)
        else (_round2 r.details.itot_raw, false)) :=
  ⟨by norm_num [_round2, round_eq],
    pv_clamped_by_primary_total 1000 10 15000 0 0 0 false
      (by norm_num [_round2, round_eq])⟩

/-- Witness for C9 at a concrete input: a 24 kW boiler with an
`aria_acqua` 10 kW heat pump. -/
theorem bivalente_small_boiler_equals_heatpump_witness :
    (24 : ℚ) ≤ 35 ∧
    (calc_ibrido .D "bivalente_addon" 24 "aria_acqua" 10 (some 4) 1 none).map (fun r =>
      (r.annual_incentive_eur, r.total_incentive_eur, r.n_rates, r.annual_rate_eur)) =
    (calc_pdc_elettrica .D "aria_acqua" 10 (some 4) 1 none).map (fun r =>
      (r.annual_incentive_eur, r.total_incentive_eur, r.n_rates, r.annual_rate_eur)) :=
  ⟨by norm_num,
    bivalente_small_boiler_equals_heatpump .D 24 "aria_acqua" 10 (some 4) 1 none
      (by norm_num)⟩

/-- Witness for C4 at concrete inputs for all six calculators. -/
theorem monetary_outputs_nonneg_witness :
    (0 : ℚ) ≤ 10 ∧ (0 : ℚ) ≤ 1 ∧ (1 : ℚ) ≤ (some (4 : ℚ)).getD 1 ∧
    (1 : ℚ) ≤ (none : Option ℚ).getD 1 ∧
    (0 : ℝ) ≤ 30 ∧ (lower_strip "caldaia" ≠ "caldaia" → (1 : ℝ) ≤ 30) ∧
    (0 : ℚ) ≤ 20 ∧ (0 : ℚ) ≤ 2 ∧ (0 : ℚ) ≤ (some (1200 : ℚ)).getD 0 ∧
    (0 : ℚ) ≤ (none : Option ℚ).getD 0 ∧
    (0 : ℚ) ≤ 1000 ∧ (0 : ℚ) ≤ 6 ∧ (0 : ℚ) ≤ 9000 ∧ (0 : ℚ) ≤ 10 ∧
    (0 : ℚ) ≤ 6000 ∧ (0 : ℤ) ≤ 0 ∧
    (0 : ℚ) ≤ 1000 ∧ (0 : ℚ) ≤ 3000 ∧ (0 : ℚ) ≤ (none : Option ℚ).getD 0 ∧
    (((calc_pdc_elettrica .D "aria_acqua" 10 (some 4) 1 none).toOption.map fun r =>
        (|r.annual_incentive_eur|, |r.total_incentive_eur|, |r.annual_rate_eur|)) =
      ((calc_pdc_elettrica .D "aria_acqua" 10 (some 4) 1 none).toOption.map fun r =>
        (r.annual_incentive_eur, r.total_incentive_eur, r.annual_rate_eur)) ∧
    ((calc_ibrido .D "bivalente_addon" 24 "aria_acqua" 10 (some 4) 1 none).toOption.map fun r =>
        (|r.annual_incentive_eur|, |r.total_incentive_eur|, |r.annual_rate_eur|)) =
      ((calc_ibrido .D "bivalente_addon" 24 "aria_acqua" 10 (some 4) 1 none).toOption.map fun r =>
        (r.annual_incentive_eur, r.total_incentive_eur, r.annual_rate_eur)) ∧
    ((calc_biomassa .E "caldaia" 30 30).toOption.map fun r =>
        (|r.annual_incentive_eur|, |r.total_incentive_eur|, |r.annual_rate_eur|)) =
      ((calc_biomassa .E "caldaia" 30 30).toOption.map fun r =>
        (r.annual_incentive_eur, r.total_incentive_eur, r.annual_rate_eur)) ∧
    ((calc_solare_termico "acs" 20 10 2 .piano_sottovuoto (some 1200) none).toOption.map fun r =>
        (|r.annual_incentive_eur|, |r.total_incentive_eur|, |r.annual_rate_eur|)) =
      ((calc_solare_termico "acs" 20 10 2 .piano_sottovuoto (some 1200) none).toOption.map fun r =>
        (r.annual_incentive_eur, r.total_incentive_eur, r.annual_rate_eur)) ∧
    ((calc_pv_accumulo 1000 6 9000 10 6000 0 false).toOption.map fun r =>
        (|r.annual_incentive_eur|, |r.total_incentive_eur|, |r.annual_rate_eur|)) =
      ((calc_pv_accumulo 1000 6 9000 10 6000 0 false).toOption.map fun r =>
        (r.annual_incentive_eur, r.total_incentive_eur, r.annual_rate_eur)) ∧
    ((calc_ev 1000 3000 "a_tri" none).toOption.map fun r =>
        (|r.annual_incentive_eur|, |r.total_incentive_eur|, |r.annual_rate_eur|)) =
      ((calc_ev 1000 3000 "a_tri" none).toOption.map fun r =>
        (r.annual_incentive_eur, r.total_incentive_eur, r.annual_rate_eur))) :=
  ⟨by norm_num, by norm_num, by norm_num [Option.getD_some],
    by norm_num [Option.getD_none],
    by norm_num, fun hne => absurd (by decide : lower_strip "caldaia" = "caldaia") hne,
    by norm_num, by norm_num, by norm_num [Option.getD_some],
    by norm_num [Option.getD_none],
    by norm_num, by norm_num, by norm_num, by norm_num,
    by norm_num, le_refl 0,
    by norm_num, by norm_num, by norm_num [Option.getD_none],
    monetary_outputs_nonneg .D "aria_acqua" 10 (some 4) 1 none "bivalente_addon" 24
      .E "caldaia" 30 30 "acs" 20 10 2 .piano_sottovuoto (some 1200) none
      1000 6 9000 10 6000 0 false 1000 3000 "a_tri" none
      (by norm_num) (by norm_num) (by norm_num [Option.getD_some])
      (by norm_num [Option.getD_none]) (by norm_num)
      (fun hne => absurd (by decide : lower_strip "caldaia" = "caldaia") hne)
      (by norm_num) (by norm_num) (by norm_num [Option.getD_some])
      (by norm_num [Option.getD_none]) (by norm_num) (by norm_num) (by norm_num)
      (by norm_num) (by norm_num) (le_refl 0) (by norm_num) (by norm_num)
      (by norm_num [Option.getD_none])⟩

end ContoTermico
